import Mathlib

/-!
Verification of the ChatList fan-out request dispatcher and prompt improver.

This file is a shallow embedding of `network.py` and `prompt_improver.py`:
pure Python functions become Lean functions, the network is an explicit
input (`HttpResult` describes what one HTTP POST attempt produced), the
process environment is a map `String → Option String`, and Python
exceptions become explicit error values (`PyErr`, `SendErr`).  Regular
expression substitution (`re.sub` with the MULTILINE / IGNORECASE flags)
is embedded by a small backtracking matcher specialised to the pattern
constructs actually used by the source (literals, optional groups,
alternation of literals, whitespace star, line anchors).
-/

/- ## Python string primitives -/

/-- Python whitespace for `\s` and `str.strip()` (ASCII part; the source
only ever manipulates ASCII and Cyrillic text around these). -/
def isPySpace (c : Char) : Bool :=
  c = ' ' || c = '\t' || c = '\n' || c = '\r' || c = Char.ofNat 11 || c = Char.ofNat 12

/-- Python `str.lower()` restricted to the alphabets appearing in the
source: ASCII letters and the basic Cyrillic range (А..Я, Ё). -/
def pyLower (c : Char) : Char :=
  if 0x410 ≤ c.toNat ∧ c.toNat ≤ 0x42F then Char.ofNat (c.toNat + 0x20)
  else if c.toNat = 0x401 then Char.ofNat 0x451
  else c.toLower

/-- Python `s.lower()` on a whole string. -/
def strLower (s : String) : String := ⟨s.data.map pyLower⟩

/-- Core of Python `str.strip()` on the character list. -/
def pyStripCore (cs : List Char) : List Char :=
  (((cs.dropWhile isPySpace).reverse).dropWhile isPySpace).reverse

/-- Python `str.strip()`. -/
def pyStrip (s : String) : String := ⟨pyStripCore s.data⟩

/-- `needle` is a prefix of `hay` (character lists). -/
def isPre : List Char → List Char → Bool
  | [], _ => true
  | _ :: _, [] => false
  | a :: as, b :: bs => a == b && isPre as bs

/-- `needle` occurs somewhere in `hay` (character lists). -/
def listHasSub (needle : List Char) : List Char → Bool
  | [] => needle.isEmpty
  | b :: bs => isPre needle (b :: bs) || listHasSub needle bs

/-- Python `needle in hay` on strings. -/
def pyIn (needle hay : String) : Bool := listHasSub needle.data hay.data

/-- A single-quote character, written via its code point. -/
def squote : String := String.singleton (Char.ofNat 39)

/- ## JSON values -/

/-- A parsed JSON value, as produced by `response.json()`.  Numbers are
modelled as integers (no claim depends on fractional numbers). -/
inductive Json where
  | null
  | bool (b : Bool)
  | num (n : Int)
  | str (s : String)
  | arr (xs : List Json)
  | obj (fields : List (String × Json))
deriving Inhabited

mutual

/-- Python `repr()` of a parsed-JSON value (string escaping inside
`repr` of a string is not modelled; no claim exercises it). -/
def pyRepr : Json → String
  | .null => "None"
  | .bool true => "True"
  | .bool false => "False"
  | .num n => toString n
  | .str s => squote ++ s ++ squote
  | .arr xs => "[" ++ pyReprList xs ++ "]"
  | .obj fs => "\x7b" ++ pyReprFields fs ++ "\x7d"

/-- `repr` of the elements of a Python list, comma separated. -/
def pyReprList : List Json → String
  | [] => ""
  | [x] => pyRepr x
  | x :: y :: xs => pyRepr x ++ ", " ++ pyReprList (y :: xs)

/-- `repr` of the items of a Python dict, comma separated. -/
def pyReprFields : List (String × Json) → String
  | [] => ""
  | [(k, v)] => squote ++ k ++ squote ++ ": " ++ pyRepr v
  | (k, v) :: f :: fs => squote ++ k ++ squote ++ ": " ++ pyRepr v ++ ", " ++ pyReprFields (f :: fs)

end

/-- Python `str()` of a parsed-JSON value, as used by f-string
interpolation: a string is rendered verbatim, anything else by `repr`. -/
def pyStr : Json → String
  | .str s => s
  | j => pyRepr j

/-- Python truthiness of a parsed-JSON value. -/
def pyTruthy : Json → Bool
  | .null => false
  | .bool b => b
  | .num n => n ≠ 0
  | .str s => s ≠ ""
  | .arr xs => ! xs.isEmpty
  | .obj fs => ! fs.isEmpty

/-- Python truthiness of an optional string (`None` and `""` are falsy). -/
def pyTruthyOptStr : Option String → Bool
  | none => false
  | some s => s ≠ ""

/-- Python truthiness of an optional JSON value. -/
def pyTruthyOptJson : Option Json → Bool
  | none => false
  | some j => pyTruthy j

/-- First binding of a key in a JSON object's field list
(`json.loads` gives each key once, so first = only). -/
def jsonLookup (k : String) : List (String × Json) → Option Json
  | [] => none
  | (k2, v) :: fs => if k2 = k then some v else jsonLookup k fs

/- ## Python exceptions and subscripting -/

/-- The Python exceptions that can arise while reading the response:
`KeyError` carries the `repr` of the missing key (that is what `str()`
of a `KeyError` shows); the others carry their message. -/
inductive PyErr where
  | keyError (reprKey : String)
  | indexError (msg : String)
  | typeError (msg : String)
deriving DecidableEq

/-- Python `str()` of one of these exceptions. -/
def pyErrStr : PyErr → String
  | .keyError r => r
  | .indexError m => m
  | .typeError m => m

/-- Python subscripting `j[k]` with a string key. -/
def subscriptStr (j : Json) (k : String) : Except PyErr Json :=
  match j with
  | .obj fields =>
      match jsonLookup k fields with
      | some v => .ok v
      | none => .error (.keyError (squote ++ k ++ squote))
  | .str _ => .error (.typeError "string indices must be integers")
  | .arr _ => .error (.typeError "list indices must be integers or slices, not str")
  | .num _ => .error (.typeError "'int' object is not subscriptable")
  | .bool _ => .error (.typeError "'bool' object is not subscriptable")
  | .null => .error (.typeError "'NoneType' object is not subscriptable")

/-- Python subscripting `j[0]`. -/
def subscriptZero (j : Json) : Except PyErr Json :=
  match j with
  | .arr [] => .error (.indexError "list index out of range")
  | .arr (x :: _) => .ok x
  | .obj _ => .error (.keyError "0")
  | .str s =>
      match s.data with
      | [] => .error (.indexError "string index out of range")
      | c :: _ => .ok (.str (String.singleton c))
  | .num _ => .error (.typeError "'int' object is not subscriptable")
  | .bool _ => .error (.typeError "'bool' object is not subscriptable")
  | .null => .error (.typeError "'NoneType' object is not subscriptable")

/-- `_extract_response`: `response_data["choices"][0]["message"]["content"]`
(identical in all four client classes). -/
def extractResponse (j : Json) : Except PyErr Json := do
  let c ← subscriptStr j "choices"
  let c0 ← subscriptZero c
  let m ← subscriptStr c0 "message"
  subscriptStr m "content"

/-- Python `len()` of a parsed-JSON value (used by the response-length
log line, whose `TypeError` on unsized values propagates). -/
def pyLen : Json → Except PyErr Nat
  | .str s => .ok s.length
  | .arr xs => .ok xs.length
  | .obj fs => .ok fs.length
  | .num _ => .error (.typeError "object of type 'int' has no len()")
  | .bool _ => .error (.typeError "object of type 'bool' has no len()")
  | .null => .error (.typeError "object of type 'NoneType' has no len()")

/- ## Data model -/

/-- One model configuration as handed to the network layer: the Python
dict with keys `id`, `name`, `api_url`, `api_id` (`none` = key absent
or `None`). -/
structure ModelData where
  id : Option Int := none
  name : Option String := none
  api_url : Option String := none
  api_id : Option String := none
deriving DecidableEq, Inhabited

/-- The process environment, `os.getenv`. -/
abbrev EnvMap := String → Option String

/-- The four client classes of `network.py`. -/
inductive ClientKind where
  | openai
  | deepseek
  | groq
  | openrouter
deriving DecidableEq, Inhabited

/-- An API client: its class, the key and URL it was constructed with
(`timeout` is the fixed 30-second constructor default). -/
structure Client where
  kind : ClientKind
  api_key : String
  api_url : String
  timeout : Nat := 30
deriving DecidableEq, Inhabited

/-- The default model name each client uses when no override is given. -/
def defaultModel : ClientKind → String
  | .openai => "gpt-4"
  | .deepseek => "deepseek-chat"
  | .groq => "llama-3.1-70b-versatile"
  | .openrouter => "openai/gpt-4"

/-- `_get_headers` of each client class. -/
def clientHeaders (c : Client) : List (String × String) :=
  [("Content-Type", "application/json"), ("Authorization", "Bearer " ++ c.api_key)]
    ++ (match c.kind with
        | .openrouter => [("HTTP-Referer", "https://github.com/Artser/ChatList"), ("X-Title", "ChatList")]
        | _ => [])

/-- The JSON body `_prepare_request_data` builds. -/
structure RequestData where
  model : String
  messages : List (String × String)
  temperature : Rat
deriving DecidableEq

/-- Python `model_name or default`. -/
def pyOrStr (v : Option String) (d : String) : String :=
  match v with
  | some s => if s = "" then d else s
  | none => d

/-- `_prepare_request_data`: same shape in every client class, only the
default model name differs. -/
def prepareRequestData (k : ClientKind) (prompt : String) (model_name : Option String) : RequestData :=
  { model := pyOrStr model_name (defaultModel k)
    messages := [("user", prompt)]
    temperature := 7 / 10 }

/- ## Adapter resolver -/

/-- `get_api_key`: read an environment variable (logging only on miss). -/
def get_api_key (env : EnvMap) (api_id : String) : Option String := env api_id

/-- Python truthiness test `not x` for an optional string. -/
def pyFalsyOpt (v : Option String) : Bool :=
  match v with
  | none => true
  | some s => s = ""

/-- `create_client`: pick a client class by case-insensitive substring of
URL or name, resolve the credential (fixed `OPENROUTER_API_KEY` for the
gateway, else the env var named by `api_id`), return `none` on any miss. -/
def create_client (env : EnvMap) (md : ModelData) : Option Client :=
  let api_id := md.api_id
  let api_url := md.api_url
  let name := strLower (md.name.getD "")
  if pyFalsyOpt api_id || pyFalsyOpt api_url then none
  else
    let url := api_url.getD ""
    let is_openrouter := pyIn "openrouter" (strLower url) || pyIn "openrouter" name
    if is_openrouter then
      match get_api_key env "OPENROUTER_API_KEY" with
      | none => none
      | some k => if k = "" then none else some { kind := .openrouter, api_key := k, api_url := url }
    else
      match get_api_key env (api_id.getD "") with
      | none => none
      | some k =>
        if k = "" then none
        else if pyIn "openai" (strLower url) || pyIn "openai" name then
          some { kind := .openai, api_key := k, api_url := url }
        else if pyIn "deepseek" (strLower url) || pyIn "deepseek" name then
          some { kind := .deepseek, api_key := k, api_url := url }
        else if pyIn "groq" (strLower url) || pyIn "groq" name then
          some { kind := .groq, api_key := k, api_url := url }
        else
          some { kind := .openai, api_key := k, api_url := url }

/- ## One HTTP request -/

/-- What one `requests.post` attempt produced, as seen by the caller:
a raised timeout / connection error / other request exception, or a
delivered response with a status code and a body (`.error m` = the body
is not decodable JSON and `response.json()` raises `ValueError` with
message `m`). -/
inductive HttpResult where
  | timeout
  | connectionError
  | requestException (msg : String)
  | response (status : Nat) (body : Except String Json)

/-- `_get_user_friendly_error`'s body probe: `error.message` from the
response body, with every failure (undecodable body, non-dict node)
swallowed by the bare `except` into the empty string. -/
def extractErrorMessage (body : Except String Json) : Json :=
  match body with
  | .error _ => .str ""
  | .ok (.obj fields) =>
      match jsonLookup "error" fields with
      | some (.obj efields) => (jsonLookup "message" efields).getD (.str "")
      | some _ => .str ""
      | none => .str ""
  | .ok _ => .str ""

/-- `_get_user_friendly_error`: map an HTTP status (≥ 400) and response
body to the Russian user-facing message. -/
def userFriendlyError (api_url : String) (status : Nat) (body : Except String Json) : String :=
  let em := extractErrorMessage body
  if status = 400 then
    "Неправильный запрос" ++ (if pyTruthy em then ": " ++ pyStr em else "")
  else if status = 401 then
    "Неверный API-ключ. Проверьте правильность ключа в файле .env"
  else if status = 402 then
    "Требуется оплата. Пополните баланс аккаунта или выберите другую модель"
  else if status = 403 then
    "Доступ запрещен. Проверьте права доступа к API"
  else if status = 404 then
    if pyIn "openrouter" (strLower api_url) then
      "Модель не найдена. Проверьте правильность имени модели в настройках"
    else
      "Ресурс не найден. Проверьте URL API"
  else if status = 429 then
    "Превышен лимит запросов. Подождите немного и попробуйте снова"
  else if 500 ≤ status then
    "Ошибка сервера (код " ++ toString status ++ "). Сервис временно недоступен"
  else
    "Ошибка HTTP " ++ toString status ++ (if pyTruthy em then ": " ++ pyStr em else "")

/-- How `send_request` terminates: a raised `APIError` with a message, or
an uncaught Python exception (`IndexError` / `TypeError`) escaping it. -/
inductive SendErr where
  | apiError (msg : String)
  | pyError (e : PyErr)
deriving DecidableEq

/-- `send_request`, instrumented: the request body it POSTs, paired with
how the call ends.  The `except` clauses catch `APIError`,
`requests` exceptions, and `(KeyError, ValueError)`; `IndexError` and
`TypeError` (from extraction or from `len()` of an unsized value in the
log line) escape as `pyError`. -/
def sendRequestTraced (c : Client) (hr : HttpResult) (prompt : String) (model_name : Option String) :
    RequestData × Except SendErr Json :=
  let data := prepareRequestData c.kind prompt model_name
  (data,
    match hr with
    | .timeout => .error (.apiError "Таймаут при запросе. Сервер не ответил вовремя")
    | .connectionError => .error (.apiError "Ошибка подключения. Проверьте интернет-соединение")
    | .requestException m => .error (.apiError ("Ошибка сети: " ++ m))
    | .response status body =>
      if 400 ≤ status then
        .error (.apiError (userFriendlyError c.api_url status body))
      else
        match body with
        | .error m => .error (.apiError ("Ошибка парсинга ответа: " ++ m))
        | .ok j =>
          match extractResponse j with
          | .error (.keyError r) => .error (.apiError ("Ошибка парсинга ответа: " ++ r))
          | .error e => .error (.pyError e)
          | .ok v =>
            match pyLen v with
            | .ok _ => .ok v
            | .error e => .error (.pyError e))

/- ## Per-model send -/

/-- `send_prompt_to_model`, instrumented: its `(response, error)` pair,
paired with the body of the one HTTP POST it performed (`none` = no
call was attempted).  `APIError` yields its message; any other escaped
exception is caught by the blanket handler into «Неожиданная ошибка». -/
def sendPromptToModelTraced (env : EnvMap) (hr : HttpResult) (prompt : String) (md : ModelData) :
    (Option Json × Option String) × Option RequestData :=
  match create_client env md with
  | none => ((none, some "Не удалось создать клиент API"), none)
  | some client =>
    let api_url := strLower (md.api_url.getD "")
    let name := strLower (md.name.getD "")
    let is_openrouter := pyIn "openrouter" api_url || pyIn "openrouter" name
    let model_name := if is_openrouter then md.api_id else none
    let r := sendRequestTraced client hr prompt model_name
    match r.2 with
    | .ok v => ((some v, none), some r.1)
    | .error (.apiError m) => ((none, some m), some r.1)
    | .error (.pyError e) => ((none, some ("Неожиданная ошибка: " ++ pyErrStr e)), some r.1)

/-- `send_prompt_to_model`: the `(response, error)` pair. -/
def send_prompt_to_model (env : EnvMap) (hr : HttpResult) (prompt : String) (md : ModelData) :
    Option Json × Option String :=
  (sendPromptToModelTraced env hr prompt md).1

/- ## Dispatch -/

/-- One result dict of `send_prompt_to_models_async`. -/
structure Outcome where
  model_id : Option Int
  model_name : String
  response : Option Json
  error : Option String

/-- The worker closure `send_to_model` inside the dispatcher (its own
`try/except` is unreachable because `send_prompt_to_model` already
catches every exception). -/
def send_to_model (env : EnvMap) (hr : HttpResult) (prompt : String) (md : ModelData) : Outcome :=
  let r := send_prompt_to_model env hr prompt md
  { model_id := md.id
    model_name := md.name.getD "Unknown"
    response := r.1
    error := r.2 }

/-- `send_prompt_to_models_async`: one task per listed model (task `i`'s
network interaction is `world i`), results gathered in completion order.
`as_completed` fixes no order, so the completion order is an input:
a permutation `order` of the task indices. -/
def send_prompt_to_models_async (env : EnvMap) (world : Nat → HttpResult) (prompt : String)
    (models_list : List ModelData) (order : List Nat) : List Outcome :=
  order.map (fun i => send_to_model env (world i) prompt (models_list.getD i default))

/- ## Regex engine for `re.sub` -/

/-- A matcher state: the character preceding the current position
(`none` = start of string) and the remaining input. -/
abbrev St := Option Char × List Char

/-- One pattern atom.  `bolM` / `eolM` are `^` / `$` under MULTILINE;
`lit` a literal run; `optLit` an optional literal (`\n?`);
`optAltLits` an optional alternation of literals (`(?:a|b|c)?`);
`wsStar` is `\s*`. -/
inductive RE where
  | bolM
  | eolM
  | lit (pcs : List Char)
  | optLit (pcs : List Char)
  | optAltLits (alts : List (List Char))
  | wsStar
deriving DecidableEq

/-- Does pattern character `p` match input character `c`
(case-insensitively when `ci`, i.e. under IGNORECASE with an
already-lowercase pattern)? -/
def charEq (ci : Bool) (p c : Char) : Bool :=
  if ci then pyLower c = p else c = p

/-- Consume a literal run from a state. -/
def litConsume (ci : Bool) : List Char → St → Option St
  | [], st => some st
  | _ :: _, (_, []) => none
  | p :: ps, (_, c :: cs) => if charEq ci p c then litConsume ci ps (some c, cs) else none

/-- All ways `\s*` can consume, shortest first. -/
def wsStatesFwd (prev : Option Char) : List Char → List St
  | [] => [(prev, [])]
  | c :: cs => (prev, c :: cs) :: (if isPySpace c then wsStatesFwd (some c) cs else [])

/-- All ways one atom can match from a state, in the backtracking
preference order Python uses (greedy: longest / alternatives first). -/
def matchOne (ci : Bool) : RE → St → List St
  | .bolM, (prev, cs) => if prev = none ∨ prev = some '\n' then [(prev, cs)] else []
  | .eolM, (prev, cs) => if cs = [] ∨ cs.head? = some '\n' then [(prev, cs)] else []
  | .lit pcs, st => (litConsume ci pcs st).toList
  | .optLit pcs, st => (litConsume ci pcs st).toList ++ [st]
  | .optAltLits alts, st => (alts.filterMap (fun a => litConsume ci a st)) ++ [st]
  | .wsStar, (prev, cs) => (wsStatesFwd prev cs).reverse

/-- All ways a pattern (a sequence of atoms) can match from a state, in
preference order; the head is the match Python commits to. -/
def matchSeq (ci : Bool) (pat : List RE) (st : St) : List St :=
  match pat with
  | [] => [st]
  | r :: rs => (matchOne ci r st).flatMap (matchSeq ci rs)

/-- The substitution's per-position decision: the match Python commits to
at this position, provided it consumes at least one character (an empty
match replaces nothing and the scan just advances). -/
def fireAt (ci : Bool) (pat : List RE) (st : St) : Option St :=
  match matchSeq ci pat st with
  | (prev2, rest) :: _ => if rest.length < st.2.length then some (prev2, rest) else none
  | [] => none

/-- The scan-and-replace loop of `re.sub(pat, '', s)`: at each position
try the pattern; on a non-empty match drop the matched characters and
continue after them, otherwise copy one character.  Fuel bounds the
number of positions visited (`length + 1` always suffices). -/
def subFrom (ci : Bool) (pat : List RE) : Nat → Option Char → List Char → List Char
  | 0, _, cs => cs
  | fuel + 1, prev, cs =>
    match fireAt ci pat (prev, cs) with
    | some (prev2, rest) => subFrom ci pat fuel prev2 rest
    | none =>
      match cs with
      | [] => []
      | c :: cs2 => c :: subFrom ci pat fuel (some c) cs2

/-- `re.sub(pat, '', ·)` on a character list. -/
def pySubCore (ci : Bool) (pat : List RE) (cs : List Char) : List Char :=
  subFrom ci pat (cs.length + 1) none cs

/-- `re.sub(pat, '', ·)` on a string. -/
def pySub (ci : Bool) (pat : List RE) (s : String) : String :=
  ⟨pySubCore ci pat s.data⟩

/-- A backtick character, written via its code point. -/
def btick : Char := Char.ofNat 96

/-- The pattern `^```(?:prompt|text|markdown)?\s*\n?` (MULTILINE). -/
def fenceOpenPat : List RE :=
  [.bolM, .lit [btick, btick, btick],
   .optAltLits ["prompt".data, "text".data, "markdown".data],
   .wsStar, .optLit ['\n']]

/-- The pattern `\n?```\s*$` (MULTILINE). -/
def fenceClosePat : List RE :=
  [.optLit ['\n'], .lit [btick, btick, btick], .wsStar, .eolM]

/-- One lead-in pattern `^<phrase>\s*` (MULTILINE, IGNORECASE). -/
def leadinPat (phrase : String) : List RE :=
  [.bolM, .lit phrase.data, .wsStar]

/-- The six lead-in patterns, in source order. -/
def leadinPats : List (List RE) :=
  [leadinPat "улучшенный промт:",
   leadinPat "вот улучшенная версия:",
   leadinPat "улучшенная версия:",
   leadinPat "improved prompt:",
   leadinPat "here is the improved version:",
   leadinPat "improved version:"]

/- ## Prompt improver -/

/-- `parse_improved_prompt` on the character list: empty in, empty out;
otherwise strip fence markers, then the six lead-in phrases, then
surrounding whitespace (an empty cleaned result is returned as such). -/
def parseImprovedCore (cs : List Char) : List Char :=
  if cs.isEmpty then []
  else
    pyStripCore
      (leadinPats.foldl (fun acc pat => pySubCore true pat acc)
        (pySubCore false fenceClosePat (pySubCore false fenceOpenPat cs)))

/-- `parse_improved_prompt`. -/
def parse_improved_prompt (response : String) : String :=
  ⟨parseImprovedCore response.data⟩

/-- The fixed improvement template, split at its `{original_prompt}`
placeholder. -/
def improvementTemplateHead : String :=
  "Ты - эксперт по написанию эффективных промтов для AI-моделей.\n\nПроанализируй и улучши следующий промт:\n- Сделай его более четким и конкретным\n- Добавь структуру, если необходимо\n- Убедись, что инструкции понятны\n- Оптимизируй для получения лучших результатов\n\nИсходный промт:\n"

/-- The template text after the placeholder. -/
def improvementTemplateTail : String :=
  "\n\nВерни только улучшенную версию промта без дополнительных комментариев или объяснений."

/-- `generate_improvement_prompt`: reject an empty / whitespace-only
original (`ValueError`, as an `Except.error` message), else instantiate
the template with the stripped original. -/
def generate_improvement_prompt (original : String) : Except String String :=
  if original = "" ∨ pyStrip original = "" then
    .error "Исходный промт не может быть пустым"
  else
    .ok (improvementTemplateHead ++ pyStrip original ++ improvementTemplateTail)

/-- `improve_prompt`, instrumented like `sendPromptToModelTraced` with
the body of the one HTTP POST performed (`none` = no call).  A non-string
response value makes `re.sub` raise `TypeError`, caught by the blanket
handler. -/
def improvePromptTraced (env : EnvMap) (hr : HttpResult) (original_prompt : String)
    (_model_name : String) (md : ModelData) :
    (Option String × Option String) × Option RequestData :=
  match generate_improvement_prompt original_prompt with
  | .error m => ((none, some m), none)
  | .ok improvement_prompt =>
    let r := sendPromptToModelTraced env hr improvement_prompt md
    if pyTruthyOptStr r.1.2 then ((none, r.1.2), r.2)
    else if ¬ pyTruthyOptJson r.1.1 then ((none, some "Получен пустой ответ от модели"), r.2)
    else
      match r.1.1 with
      | some (.str s) =>
        let improved := parse_improved_prompt s
        if improved = "" then
          ((none, some "Не удалось извлечь улучшенный промт из ответа модели"), r.2)
        else
          ((some improved, none), r.2)
      | _ =>
        ((none, some ("Неожиданная ошибка при улучшении промта: " ++
            "expected string or bytes-like object")), r.2)

/-- `improve_prompt`: the `(improved, error)` pair. -/
def improve_prompt (env : EnvMap) (hr : HttpResult) (original_prompt : String)
    (model_name : String) (md : ModelData) : Option String × Option String :=
  (improvePromptTraced env hr original_prompt model_name md).1

/- ## Predicates used by the statements -/

/-- No character of the list is a backtick (so neither fence pattern can
ever match). -/
def noTick (cs : List Char) : Bool := cs.all (fun c => c != btick)

/-- The first character, if any, is not whitespace. -/
def headNoWs (cs : List Char) : Bool :=
  match cs.head? with
  | none => true
  | some c => ! isPySpace c

/-- The last character, if any, is not whitespace. -/
def lastNoWs (cs : List Char) : Bool := headNoWs cs.reverse

/-- The character preceding the position just after `cs`, when the
position just before `cs` was preceded by `prev`. -/
def lastPrev (prev : Option Char) : List Char → Option Char
  | [] => prev
  | c :: cs => lastPrev (some c) cs

/-- The substitution never fires at any position of `cs` (scanned with
preceding character `prev`), so `re.sub` leaves `cs` unchanged. -/
def noFire (ci : Bool) (pat : List RE) : Option Char → List Char → Bool
  | _, [] => true
  | prev, c :: cs => (fireAt ci pat (prev, c :: cs)).isNone && noFire ci pat (some c) cs

/-- The substitution never fires at any position inside the segment `seg`
when the input continues with `tail` after it. -/
def noFireSeg (ci : Bool) (pat : List RE) : Option Char → (seg tail : List Char) → Bool
  | _, [], _ => true
  | prev, a :: as, tail => (fireAt ci pat (prev, a :: (as ++ tail))).isNone && noFireSeg ci pat (some a) as tail

/-- A well-shaped response body carrying `v` at
`choices[0].message.content`. -/
def mkBody (v : Json) : Json :=
  Json.obj [("choices", Json.arr [Json.obj [("message", Json.obj [("content", v)])]])]

/-- A delivered HTTP 200 response whose body carries `reply` at
`choices[0].message.content`. -/
def replyHttp (reply : String) : HttpResult :=
  .response 200 (.ok (mkBody (Json.str reply)))

/- ## Engine lemmas -/

/-- No pattern can consume past the end of the input. -/
theorem fireAt_nil (ci : Bool) (pat : List RE) (prev : Option Char) :
    fireAt ci pat (prev, []) = none := by
  unfold fireAt
  cases h : matchSeq ci pat (prev, []) with
  | nil => rfl
  | cons st l =>
    obtain ⟨p2, rest⟩ := st
    simp

/-- The scan of an empty input produces an empty output. -/
theorem subFrom_nil (ci : Bool) (pat : List RE) (fuel : Nat) (prev : Option Char) :
    subFrom ci pat fuel prev [] = [] := by
  cases fuel with
  | zero => rfl
  | succ n => simp [subFrom, fireAt_nil]

/-- Stepping the scan through a committed non-empty match. -/
theorem subFrom_fire (ci : Bool) (pat : List RE) (fuel : Nat) (prev p2 : Option Char)
    (cs rest : List Char) (h : fireAt ci pat (prev, cs) = some (p2, rest)) :
    subFrom ci pat (fuel + 1) prev cs = subFrom ci pat fuel p2 rest := by
  simp [subFrom, h]

/-- If the substitution never fires along `cs`, the scan copies `cs`
verbatim, whatever the fuel. -/
theorem noFire_id (ci : Bool) (pat : List RE) :
    ∀ (cs : List Char) (prev : Option Char) (fuel : Nat),
      noFire ci pat prev cs = true → subFrom ci pat fuel prev cs = cs := by
  intro cs
  induction cs with
  | nil => intro prev fuel _; exact subFrom_nil ..
  | cons c cs ih =>
    intro prev fuel h
    simp only [noFire, Bool.and_eq_true, Option.isNone_iff_eq_none] at h
    cases fuel with
    | zero => rfl
    | succ n =>
      simp [subFrom, h.1]
      exact ih (some c) n h.2

/-- The scan copies a segment inside which the substitution never fires,
then continues after it. -/
theorem subFrom_copySeg (ci : Bool) (pat : List RE) :
    ∀ (seg : List Char) (prev : Option Char) (tail : List Char) (fuel : Nat),
      noFireSeg ci pat prev seg tail = true → seg.length ≤ fuel →
      subFrom ci pat fuel prev (seg ++ tail) =
        seg ++ subFrom ci pat (fuel - seg.length) (lastPrev prev seg) tail := by
  intro seg
  induction seg with
  | nil => intro prev tail fuel _ _; simp [lastPrev]
  | cons a as ih =>
    intro prev tail fuel h hf
    simp only [noFireSeg, Bool.and_eq_true, Option.isNone_iff_eq_none] at h
    cases fuel with
    | zero => simp at hf
    | succ n =>
      simp only [List.cons_append, subFrom, h.1]
      rw [ih (some a) tail n h.2 (by simpa using hf)]
      simp [lastPrev]

/-- `lastPrev` after a segment ending in an explicit character. -/
theorem lastPrev_append_singleton (prev : Option Char) (seg : List Char) (c : Char) :
    lastPrev prev (seg ++ [c]) = some c := by
  induction seg generalizing prev with
  | nil => rfl
  | cons a as ih => simpa [lastPrev] using ih (some a)

/-- The opening-fence pattern needs a backtick right at the position. -/
theorem matchSeq_fenceOpen_eq_nil (prev : Option Char) (cs : List Char)
    (hc : cs.head? ≠ some btick) : matchSeq false fenceOpenPat (prev, cs) = [] := by
  unfold fenceOpenPat matchSeq matchOne
  by_cases hb : prev = none ∨ prev = some '\n'
  · simp only [if_pos hb]
    cases cs with
    | nil => simp [matchSeq, matchOne, litConsume]
    | cons c t =>
      have hcb : c ≠ btick := by simpa using hc
      simp [matchSeq, matchOne, litConsume, charEq, hcb]
  · simp [if_neg hb]

/-- The closing-fence pattern cannot match anywhere in a backtick-free
input. -/
theorem matchSeq_fenceClose_eq_nil (prev : Option Char) (cs : List Char)
    (h : noTick cs = true) : matchSeq false fenceClosePat (prev, cs) = [] := by
  unfold fenceClosePat matchSeq matchOne
  cases cs with
  | nil => simp [litConsume, matchSeq, matchOne]
  | cons c t =>
    simp only [noTick, List.all_cons, Bool.and_eq_true, bne_iff_ne] at h
    have hlit : ∀ pv, litConsume false [btick, btick, btick] (pv, c :: t) = none := by
      intro pv
      simp [litConsume, charEq, h.1]
    have hlit2 : ∀ pv, litConsume false [btick, btick, btick] (pv, t) = none := by
      intro pv
      cases t with
      | nil => simp [litConsume]
      | cons d u =>
        simp only [noTick, List.all_cons, Bool.and_eq_true, bne_iff_ne] at h
        simp [litConsume, charEq, h.2.1]
    cases hnl : litConsume false ['\n'] (prev, c :: t) with
    | none => simp [hnl, matchSeq, matchOne, hlit]
    | some st =>
      obtain ⟨pv, rest⟩ := st
      have hrest : rest = t := by
        simp [litConsume, charEq] at hnl
        exact hnl.2.2.symm
      subst hrest
      simp [hnl, matchSeq, matchOne, hlit, hlit2]

/-- A lead-in pattern needs its first letter (case-insensitively) right
at the position. -/
theorem matchSeq_leadin_eq_nil (p0 : Char) (ps : List Char) (prev : Option Char)
    (c : Char) (t : List Char) (hc : charEq true p0 c = false) :
    matchSeq true [.bolM, .lit (p0 :: ps), .wsStar] (prev, c :: t) = [] := by
  unfold matchSeq matchOne
  by_cases hb : prev = none ∨ prev = some '\n'
  · simp [if_pos hb, matchSeq, matchOne, litConsume, hc]
  · simp [if_neg hb]

/-- `noFire` for the opening fence on a backtick-free input. -/
theorem noFire_fenceOpen (prev : Option Char) (cs : List Char) (h : noTick cs = true) :
    noFire false fenceOpenPat prev cs = true := by
  induction cs generalizing prev with
  | nil => rfl
  | cons c t ih =>
    simp only [noTick, List.all_cons, Bool.and_eq_true, bne_iff_ne] at h
    have hm : matchSeq false fenceOpenPat (prev, c :: t) = [] :=
      matchSeq_fenceOpen_eq_nil prev (c :: t) (by simpa using h.1)
    simp [noFire, fireAt, hm]
    exact ih (some c) (by simpa [noTick] using h.2)

/-- `noFire` for the closing fence on a backtick-free input. -/
theorem noFire_fenceClose (prev : Option Char) (cs : List Char) (h : noTick cs = true) :
    noFire false fenceClosePat prev cs = true := by
  induction cs generalizing prev with
  | nil => rfl
  | cons c t ih =>
    have hm : matchSeq false fenceClosePat (prev, c :: t) = [] :=
      matchSeq_fenceClose_eq_nil prev (c :: t) h
    simp only [noTick, List.all_cons, Bool.and_eq_true, bne_iff_ne] at h
    simp [noFire, fireAt, hm]
    exact ih (some c) (by simpa [noTick] using h.2)

/-- `noFireSeg` for the opening fence across a backtick-free segment. -/
theorem noFireSeg_fenceOpen (prev : Option Char) (seg tail : List Char)
    (h : noTick seg = true) : noFireSeg false fenceOpenPat prev seg tail = true := by
  induction seg generalizing prev with
  | nil => rfl
  | cons a as ih =>
    simp only [noTick, List.all_cons, Bool.and_eq_true, bne_iff_ne] at h
    have hm : matchSeq false fenceOpenPat (prev, a :: (as ++ tail)) = [] :=
      matchSeq_fenceOpen_eq_nil prev (a :: (as ++ tail)) (by simpa using h.1)
    simp [noFireSeg, fireAt, hm]
    exact ih (some a) (by simpa [noTick] using h.2)

/-- `noFireSeg` for a lead-in pattern across a segment none of whose
characters can open the phrase. -/
theorem noFireSeg_leadin (p0 : Char) (ps : List Char) (prev : Option Char)
    (seg tail : List Char) (h : seg.all (fun c => ! charEq true p0 c) = true) :
    noFireSeg true [.bolM, .lit (p0 :: ps), .wsStar] prev seg tail = true := by
  induction seg generalizing prev with
  | nil => rfl
  | cons a as ih =>
    simp only [List.all_cons, Bool.and_eq_true, Bool.not_eq_true'] at h
    have hm := matchSeq_leadin_eq_nil p0 ps prev a (as ++ tail) h.1
    simp [noFireSeg, fireAt, hm]
    exact ih (some a) (by simpa using h.2)

/-- Concatenate a fire-free segment with a fire-free remainder. -/
theorem noFire_append (ci : Bool) (pat : List RE) (prev : Option Char)
    (seg tail : List Char) (h1 : noFireSeg ci pat prev seg tail = true)
    (h2 : noFire ci pat (lastPrev prev seg) tail = true) :
    noFire ci pat prev (seg ++ tail) = true := by
  induction seg generalizing prev with
  | nil => simpa [lastPrev] using h2
  | cons a as ih =>
    simp only [noFireSeg, Bool.and_eq_true] at h1
    simp only [List.cons_append, noFire, Bool.and_eq_true]
    exact ⟨h1.1, ih (some a) h1.2 (by simpa [lastPrev] using h2)⟩

/- ## Strip lemmas -/

/-- Dropping leading whitespace leaves a whitespace-free head. -/
theorem headNoWs_dropWhile (l : List Char) : headNoWs (l.dropWhile isPySpace) = true := by
  induction l with
  | nil => rfl
  | cons c t ih =>
    by_cases h : isPySpace c = true
    · simpa [List.dropWhile_cons, h] using ih
    · simp [List.dropWhile_cons, h, headNoWs]

/-- Dropping leading whitespace is the identity when the head is not
whitespace. -/
theorem dropWhile_id_of_headNoWs (l : List Char) (h : headNoWs l = true) :
    l.dropWhile isPySpace = l := by
  cases l with
  | nil => rfl
  | cons c t =>
    simp only [headNoWs, List.head?, Bool.not_eq_true'] at h
    simp [List.dropWhile_cons, h]

/-- Dropping a prefix preserves the last element when anything is left. -/
theorem dropWhile_getLast? (l : List Char) (h : l.dropWhile isPySpace ≠ []) :
    (l.dropWhile isPySpace).getLast? = l.getLast? := by
  induction l with
  | nil => simp at h
  | cons c t ih =>
    by_cases hc : isPySpace c = true
    · rw [List.dropWhile_cons, if_pos hc] at h ⊢
      rw [ih h]
      have ht : t ≠ [] := by
        intro e
        subst e
        simp at h
      cases t with
      | nil => exact absurd rfl ht
      | cons d u => exact (List.getLast?_cons_cons ..).symm
    · rw [List.dropWhile_cons, if_neg hc]

/-- `strip` of a clean text followed by one newline gives the text back. -/
theorem pyStripCore_clean_append_nl (cs : List Char) (h1 : headNoWs cs = true)
    (h2 : lastNoWs cs = true) : pyStripCore (cs ++ ['\n']) = cs := by
  cases cs with
  | nil => rfl
  | cons c t =>
    unfold pyStripCore
    have hfront : (c :: t ++ ['\n']).dropWhile isPySpace = c :: t ++ ['\n'] := by
      apply dropWhile_id_of_headNoWs
      simpa [headNoWs] using h1
    rw [hfront]
    have hrev : (c :: t ++ ['\n']).reverse = '\n' :: (c :: t).reverse := by
      simp
    rw [hrev]
    have hnl : isPySpace '\n' = true := rfl
    rw [List.dropWhile_cons, if_pos hnl]
    rw [dropWhile_id_of_headNoWs _ h2]
    simp

/-- `strip` is idempotent. -/
theorem pyStripCore_idem (cs : List Char) : pyStripCore (pyStripCore cs) = pyStripCore cs := by
  by_cases hv : ((cs.dropWhile isPySpace).reverse).dropWhile isPySpace = []
  · unfold pyStripCore
    rw [hv]
    rfl
  · unfold pyStripCore
    have hhead : headNoWs (((cs.dropWhile isPySpace).reverse).dropWhile isPySpace).reverse = true := by
      unfold headNoWs
      rw [List.head?_reverse]
      rw [dropWhile_getLast? _ hv, List.getLast?_reverse]
      have := headNoWs_dropWhile cs
      unfold headNoWs at this
      exact this
    rw [dropWhile_id_of_headNoWs _ hhead, List.reverse_reverse,
      dropWhile_id_of_headNoWs _ (headNoWs_dropWhile _)]

/- ## Fence and lead-in computations -/

/-- At a line start, an opening fence followed by a newline and
non-whitespace text matches exactly through its newline. -/
theorem fireOpen_at_start (c0 : Char) (h0 : isPySpace c0 = false) (tail : List Char) :
    fireAt false fenceOpenPat (none, btick :: btick :: btick :: '\n' :: c0 :: tail) =
      some (some '\n', c0 :: tail) := by
  have hn0 : c0 ≠ '\n' := by
    intro e
    subst e
    simp [isPySpace] at h0
  have hnl : isPySpace '\n' = true := rfl
  simp [fireAt, fenceOpenPat, matchSeq, matchOne, litConsume, charEq, wsStatesFwd, h0, hnl, hn0]

/-- A bare closing fence on its own final line also matches the
opening-fence pattern. -/
theorem fireOpen_at_close : fireAt false fenceOpenPat (some '\n', [btick, btick, btick]) =
    some (some btick, []) := by
  simp [fireAt, fenceOpenPat, matchSeq, matchOne, litConsume, charEq, wsStatesFwd]

/-- The characters of the English lead-in phrase. -/
theorem leadin4_data : "improved prompt:".data =
    ['i', 'm', 'p', 'r', 'o', 'v', 'e', 'd', ' ', 'p', 'r', 'o', 'm', 'p', 't', ':'] := rfl

/-- Consuming the phrase case-insensitively through capitalised input. -/
theorem litConsume_leadin4 (prev : Option Char) (R : List Char) :
    litConsume true ['i', 'm', 'p', 'r', 'o', 'v', 'e', 'd', ' ', 'p', 'r', 'o', 'm', 'p', 't', ':']
      (prev, 'I' :: 'm' :: 'p' :: 'r' :: 'o' :: 'v' :: 'e' :: 'd' :: ' ' :: 'p' :: 'r' :: 'o' :: 'm' :: 'p' :: 't' :: ':' :: ' ' :: R) =
      some (some ':', ' ' :: R) := rfl

/-- At a line start, `Improved prompt: ` followed by text that does not
begin with whitespace matches the English lead-in pattern exactly
through its trailing space. -/
theorem fireLeadin4 (prev : Option Char) (hb : prev = none ∨ prev = some '\n')
    (R : List Char) (hR : headNoWs R = true) :
    fireAt true (leadinPat "improved prompt:") (prev, "Improved prompt: ".data ++ R) =
      some (some ' ', R) := by
  have hsp : isPySpace ' ' = true := rfl
  have hdata : ("Improved prompt: ".data ++ R) =
      'I' :: 'm' :: 'p' :: 'r' :: 'o' :: 'v' :: 'e' :: 'd' :: ' ' :: 'p' :: 'r' :: 'o' :: 'm' :: 'p' :: 't' :: ':' :: ' ' :: R := rfl
  rw [hdata]
  unfold leadinPat
  rw [leadin4_data]
  cases R with
  | nil =>
    simp [fireAt, matchSeq, matchOne, if_pos hb, litConsume_leadin4, wsStatesFwd, hsp]
  | cons r rs =>
    have hr : isPySpace r = false := by
      simp only [headNoWs, List.head?, Bool.not_eq_true'] at hR
      exact hR
    have hlt : rs.length + 1 < rs.length + 18 := by omega
    simp [fireAt, matchSeq, matchOne, if_pos hb, litConsume_leadin4, wsStatesFwd, hsp, hr, hlt]

/-- The opening-fence substitution on a fenced block whose body is
backtick-free and starts with a non-whitespace character removes both
the opening and the closing fence lines. -/
theorem subOpen_fenced (c0 : Char) (h0 : isPySpace c0 = false) (B : List Char)
    (htick : noTick (c0 :: B) = true) :
    pySubCore false fenceOpenPat
      (btick :: btick :: btick :: '\n' :: (c0 :: B) ++ '\n' :: [btick, btick, btick]) =
      (c0 :: B) ++ ['\n'] := by
  unfold pySubCore
  have hlen : (btick :: btick :: btick :: '\n' :: (c0 :: B) ++ '\n' :: [btick, btick, btick]).length
      = B.length + 9 := by
    simp
  rw [hlen]
  have h1 : (btick :: btick :: btick :: '\n' :: (c0 :: B) ++ '\n' :: [btick, btick, btick])
      = btick :: btick :: btick :: '\n' :: c0 :: (B ++ '\n' :: [btick, btick, btick]) := by
    simp
  rw [h1, subFrom_fire _ _ _ _ _ _ _ (fireOpen_at_start c0 h0 _)]
  have h2 : c0 :: (B ++ '\n' :: [btick, btick, btick])
      = ((c0 :: B) ++ ['\n']) ++ [btick, btick, btick] := by
    simp
  rw [h2]
  have hseg : noFireSeg false fenceOpenPat (some '\n') ((c0 :: B) ++ ['\n']) [btick, btick, btick] = true := by
    apply noFireSeg_fenceOpen
    simp only [noTick, List.all_append] at htick ⊢
    simp [htick]
    decide
  rw [subFrom_copySeg _ _ _ _ _ _ hseg (by simp)]
  rw [lastPrev_append_singleton]
  have hfuel : B.length + 9 - ((c0 :: B) ++ ['\n']).length = 7 := by
    simp
  rw [hfuel]
  rw [show (7 : Nat) = 6 + 1 from rfl, subFrom_fire _ _ _ _ _ _ _ fireOpen_at_close]
  rw [subFrom_nil]
  simp

/-- The closing-fence substitution is the identity on backtick-free
input. -/
theorem subClose_id (cs : List Char) (h : noTick cs = true) :
    pySubCore false fenceClosePat cs = cs :=
  noFire_id _ _ _ _ _ (noFire_fenceClose none cs h)

/-- A lead-in substitution is the identity when it never fires. -/
theorem subLeadin_id (pat : List RE) (cs : List Char) (h : noFire true pat none cs = true) :
    pySubCore true pat cs = cs :=
  noFire_id _ _ _ _ _ h

/-- A lead-in substitution whose phrase starts with a letter foreign to
`Improved prompt: ` skips that segment and is the identity when it never
fires on the remainder. -/
theorem subLeadin_skip (phrase : String) (p0 : Char) (ps : List Char)
    (hph : phrase.data = p0 :: ps)
    (hseg : "Improved prompt: ".data.all (fun c => ! charEq true p0 c) = true)
    (T : List Char) (hT : noFire true (leadinPat phrase) (some ' ') T = true) :
    pySubCore true (leadinPat phrase) ("Improved prompt: ".data ++ T) =
      "Improved prompt: ".data ++ T := by
  apply noFire_id
  apply noFire_append
  · unfold leadinPat
    rw [hph]
    exact noFireSeg_leadin p0 ps none _ T hseg
  · have hlp : lastPrev none "Improved prompt: ".data = some ' ' := rfl
    rw [hlp]
    exact hT

/-- The English lead-in substitution on `Improved prompt: ` followed by
text that does not begin with whitespace deletes the phrase and its
trailing space. -/
theorem subLeadin4_fires (T : List Char) (hT : headNoWs T = true)
    (hnf : noFire true (leadinPat "improved prompt:") (some ' ') T = true) :
    pySubCore true (leadinPat "improved prompt:") ("Improved prompt: ".data ++ T) = T := by
  unfold pySubCore
  have hlen : ("Improved prompt: ".data ++ T).length = T.length + 17 := by
    simp [leadin4_data]
  rw [hlen]
  rw [show T.length + 17 + 1 = (T.length + 17) + 1 from rfl,
    subFrom_fire _ _ _ _ _ _ _ (fireLeadin4 none (Or.inl rfl) T hT)]
  exact noFire_id _ _ _ _ _ hnf

/-- Cleaning a reply of the form ```` ```\nImproved prompt: X\n``` ````:
both fence lines and the lead-in phrase are removed, leaving exactly the
inner text `X` (assumed backtick-free, trimmed, and free of further
lead-in phrase occurrences, the latter stated as `noFire` side
conditions on the remainder scans). -/
theorem parse_fenced_leadin (X : String) (hne : X.data ≠ [])
    (htick : noTick X.data = true)
    (hhead : headNoWs X.data = true) (hlast : lastNoWs X.data = true)
    (h1 : noFire true (leadinPat "улучшенный промт:") (some ' ') (X.data ++ ['\n']) = true)
    (h2 : noFire true (leadinPat "вот улучшенная версия:") (some ' ') (X.data ++ ['\n']) = true)
    (h3 : noFire true (leadinPat "улучшенная версия:") (some ' ') (X.data ++ ['\n']) = true)
    (h4 : noFire true (leadinPat "improved prompt:") (some ' ') (X.data ++ ['\n']) = true)
    (h5 : noFire true (leadinPat "here is the improved version:") none (X.data ++ ['\n']) = true)
    (h6 : noFire true (leadinPat "improved version:") none (X.data ++ ['\n']) = true) :
    parse_improved_prompt ("```\nImproved prompt: " ++ X ++ "\n```") = X := by
  obtain ⟨xc, xt, hxd⟩ : ∃ c t, X.data = c :: t := by
    cases h : X.data with
    | nil => exact absurd h hne
    | cons c t => exact ⟨c, t, rfl⟩
  have hThead : headNoWs (X.data ++ ['\n']) = true := by
    rw [hxd]
    rw [hxd] at hhead
    simpa [headNoWs] using hhead
  have hdata : ("```\nImproved prompt: " ++ X ++ "\n```").data =
      btick :: btick :: btick :: '\n' ::
        ('I' :: ("mproved prompt: ".data ++ X.data)) ++ '\n' :: [btick, btick, btick] := by
    simp only [String.data_append]
    simp [show "```\nImproved prompt: ".data =
        btick :: btick :: btick :: '\n' :: 'I' :: "mproved prompt: ".data from rfl,
      show "\n```".data = '\n' :: [btick, btick, btick] from rfl]
    rfl
  have htickIB : noTick ('I' :: ("mproved prompt: ".data ++ X.data)) = true := by
    simp only [noTick, List.all_cons, List.all_append, Bool.and_eq_true] at htick ⊢
    refine ⟨by decide, by decide, htick⟩
  unfold parse_improved_prompt
  rw [hdata]
  unfold parseImprovedCore
  rw [if_neg (by simp)]
  rw [subOpen_fenced 'I' rfl _ htickIB]
  have hM : ('I' :: ("mproved prompt: ".data ++ X.data)) ++ ['\n'] =
      "Improved prompt: ".data ++ (X.data ++ ['\n']) := by
    simp [show "Improved prompt: ".data = 'I' :: "mproved prompt: ".data from rfl]
  rw [hM]
  have htickM : noTick ("Improved prompt: ".data ++ (X.data ++ ['\n'])) = true := by
    simp only [noTick, List.all_append, Bool.and_eq_true] at htick ⊢
    refine ⟨by decide, htick, by decide⟩
  rw [subClose_id _ htickM]
  simp only [leadinPats, List.foldl_cons, List.foldl_nil]
  rw [subLeadin_skip "улучшенный промт:" 'у' "лучшенный промт:".data rfl (by decide) _ h1]
  rw [subLeadin_skip "вот улучшенная версия:" 'в' "от улучшенная версия:".data rfl (by decide) _ h2]
  rw [subLeadin_skip "улучшенная версия:" 'у' "лучшенная версия:".data rfl (by decide) _ h3]
  rw [subLeadin4_fires _ hThead h4]
  rw [subLeadin_id _ _ h5, subLeadin_id _ _ h6]
  rw [pyStripCore_clean_append_nl _ hhead hlast]

/-- The opening-fence substitution is the identity on backtick-free
input. -/
theorem subOpen_id (cs : List Char) (h : noTick cs = true) :
    pySubCore false fenceOpenPat cs = cs :=
  noFire_id _ _ _ _ _ (noFire_fenceOpen none cs h)

/-- `subFrom_fire` stated for any positive fuel. -/
theorem subFrom_fire_le (ci : Bool) (pat : List RE) (fuel : Nat) (prev p2 : Option Char)
    (cs rest : List Char) (h : fireAt ci pat (prev, cs) = some (p2, rest)) (hf : 1 ≤ fuel) :
    subFrom ci pat fuel prev cs = subFrom ci pat (fuel - 1) p2 rest := by
  cases fuel with
  | zero => omega
  | succ n => simpa using subFrom_fire ci pat n prev p2 cs rest h

/-- Cleaning a reply of the form `A\nImproved prompt: X`: the lead-in
phrase at the start of the second line — not at the start of the reply —
is deleted, leaving `A\nX` stripped of surrounding whitespace (under
`noFire` / `noFireSeg` side conditions saying no other phrase occurrence
or fence marker interferes). -/
theorem parse_midline_leadin (A X : String)
    (htickA : noTick A.data = true) (htickX : noTick X.data = true)
    (hXhead : headNoWs X.data = true)
    (h1 : noFire true (leadinPat "улучшенный промт:") none
      (A.data ++ '\n' :: ("Improved prompt: ".data ++ X.data)) = true)
    (h2 : noFire true (leadinPat "вот улучшенная версия:") none
      (A.data ++ '\n' :: ("Improved prompt: ".data ++ X.data)) = true)
    (h3 : noFire true (leadinPat "улучшенная версия:") none
      (A.data ++ '\n' :: ("Improved prompt: ".data ++ X.data)) = true)
    (hseg4 : noFireSeg true (leadinPat "improved prompt:") none (A.data ++ ['\n'])
      ("Improved prompt: ".data ++ X.data) = true)
    (h4 : noFire true (leadinPat "improved prompt:") (some ' ') X.data = true)
    (h5 : noFire true (leadinPat "here is the improved version:") none
      (A.data ++ '\n' :: X.data) = true)
    (h6 : noFire true (leadinPat "improved version:") none
      (A.data ++ '\n' :: X.data) = true) :
    parse_improved_prompt (A ++ "\nImproved prompt: " ++ X) = pyStrip (A ++ "\n" ++ X) := by
  have hdata : (A ++ "\nImproved prompt: " ++ X).data =
      A.data ++ '\n' :: ("Improved prompt: ".data ++ X.data) := by
    simp only [String.data_append]
    simp [show "\nImproved prompt: ".data = '\n' :: "Improved prompt: ".data from rfl]
  have htickAll : noTick (A.data ++ '\n' :: ("Improved prompt: ".data ++ X.data)) = true := by
    simp only [noTick, List.all_append, List.all_cons, Bool.and_eq_true] at htickA htickX ⊢
    exact ⟨htickA, by decide, by decide, htickX⟩
  unfold parse_improved_prompt
  rw [hdata]
  unfold parseImprovedCore
  rw [if_neg (by simp)]
  rw [subOpen_id _ htickAll, subClose_id _ htickAll]
  simp only [leadinPats, List.foldl_cons, List.foldl_nil]
  rw [subLeadin_id _ _ h1, subLeadin_id _ _ h2, subLeadin_id _ _ h3]
  have hsplit : A.data ++ '\n' :: ("Improved prompt: ".data ++ X.data) =
      (A.data ++ ['\n']) ++ ("Improved prompt: ".data ++ X.data) := by
    simp
  have hmid : pySubCore true (leadinPat "improved prompt:")
      (A.data ++ '\n' :: ("Improved prompt: ".data ++ X.data)) = A.data ++ '\n' :: X.data := by
    unfold pySubCore
    rw [hsplit]
    rw [subFrom_copySeg _ _ _ _ _ _ hseg4 (by simp [leadin4_data])]
    rw [lastPrev_append_singleton]
    rw [subFrom_fire_le _ _ _ _ _ _ _ (fireLeadin4 (some '\n') (Or.inr rfl) X.data hXhead)
      (by simp [leadin4_data])]
    rw [noFire_id _ _ _ _ _ h4]
    simp
  rw [hmid]
  rw [subLeadin_id _ _ h5, subLeadin_id _ _ h6]
  have hdata2 : (A ++ "\n" ++ X).data = A.data ++ '\n' :: X.data := by
    simp only [String.data_append]
    simp [show "\n".data = ['\n'] from rfl]
  unfold pyStrip
  rw [hdata2]

/- ## Network-side lemmas -/

/-- A string with a non-empty character list is not the empty string. -/
theorem strNeEmpty (s : String) (h : s.data ≠ []) : s ≠ "" := by
  intro e
  subst e
  exact h rfl

/-- Appending cannot erase a non-empty left part. -/
theorem appendNeEmptyLeft (s t : String) (h : s.data ≠ []) : s ++ t ≠ "" := by
  apply strNeEmpty
  rw [String.data_append]
  simp [h]

/-- Appending twice cannot erase a non-empty left part. -/
theorem appendAppendNeEmpty (s t u : String) (h : s.data ≠ []) : s ++ t ++ u ≠ "" := by
  apply appendNeEmptyLeft
  rw [String.data_append]
  simp [h]

/-- The user-facing HTTP error message is never empty. -/
theorem userFriendlyError_ne_empty (api_url : String) (status : Nat) (body : Except String Json) :
    userFriendlyError api_url status body ≠ "" := by
  unfold userFriendlyError
  split
  · exact appendNeEmptyLeft _ _ (by decide)
  · split
    · decide
    · split
      · decide
      · split
        · decide
        · split
          · split
            · decide
            · decide
          · split
            · decide
            · split
              · exact appendAppendNeEmpty _ _ _ (by decide)
              · exact appendAppendNeEmpty _ _ _ (by decide)

/-- Every per-model result pair has exactly one side populated. -/
theorem sptm_exclusive (env : EnvMap) (hr : HttpResult) (prompt : String) (md : ModelData) :
    ((send_prompt_to_model env hr prompt md).1.isSome ∧
      (send_prompt_to_model env hr prompt md).2 = none) ∨
    ((send_prompt_to_model env hr prompt md).1 = none ∧
      (send_prompt_to_model env hr prompt md).2.isSome) := by
  unfold send_prompt_to_model sendPromptToModelTraced
  cases hc : create_client env md with
  | none => right; simp
  | some client =>
    simp only
    cases hres : (sendRequestTraced client hr prompt
        (if pyIn "openrouter" (strLower (md.api_url.getD "")) || pyIn "openrouter" (strLower (md.name.getD ""))
         then md.api_id else none)).2 with
    | ok v => left; simp [hres]
    | error e =>
      cases e with
      | apiError m => right; simp [hres]
      | pyError pe => right; simp [hres]

/-- What a successfully constructed client records: its URL is the
configuration's URL; under the gateway marker the credential came from
the fixed `OPENROUTER_API_KEY` variable, otherwise from the variable
named by the configuration's `api_id`, and the client is never the
gateway one. -/
theorem create_client_cases (env : EnvMap) (md : ModelData) (c : Client)
    (hc : create_client env md = some c) :
    c.api_url = md.api_url.getD "" ∧
    ((pyIn "openrouter" (strLower (md.api_url.getD "")) ||
        pyIn "openrouter" (strLower (md.name.getD ""))) = true →
      c.kind = .openrouter ∧ get_api_key env "OPENROUTER_API_KEY" = some c.api_key ∧
        c.api_key ≠ "") ∧
    ((pyIn "openrouter" (strLower (md.api_url.getD "")) ||
        pyIn "openrouter" (strLower (md.name.getD ""))) = false →
      get_api_key env (md.api_id.getD "") = some c.api_key ∧ c.api_key ≠ "" ∧
        c.kind ≠ .openrouter) := by
  unfold create_client at hc
  by_cases h1 : (pyFalsyOpt md.api_id || pyFalsyOpt md.api_url) = true
  · simp only [h1, if_true] at hc
    cases hc
  · have h1f : (pyFalsyOpt md.api_id || pyFalsyOpt md.api_url) = false := by
      simpa using h1
    simp only [h1f, Bool.false_eq_true, if_false] at hc
    by_cases h2 : (pyIn "openrouter" (strLower (md.api_url.getD "")) ||
        pyIn "openrouter" (strLower (md.name.getD ""))) = true
    · rw [if_pos h2] at hc
      cases henv : get_api_key env "OPENROUTER_API_KEY" with
      | none =>
        simp only [henv] at hc
        exact Option.noConfusion hc
      | some k =>
        simp only [henv] at hc
        by_cases hk : k = ""
        · rw [if_pos hk] at hc
          cases hc
        · rw [if_neg hk] at hc
          have hcc := (Option.some_inj.mp hc).symm
          subst hcc
          refine ⟨rfl, fun _ => ⟨rfl, rfl, hk⟩, fun hco => ?_⟩
          rw [h2] at hco
          simp at hco
    · rw [if_neg h2] at hc
      simp only [Bool.not_eq_true] at h2
      cases henv : get_api_key env (md.api_id.getD "") with
      | none =>
        simp only [henv] at hc
        exact Option.noConfusion hc
      | some k =>
        simp only [henv] at hc
        by_cases hk : k = ""
        · rw [if_pos hk] at hc
          cases hc
        · rw [if_neg hk] at hc
          split at hc
          · have hcc := (Option.some_inj.mp hc).symm
            subst hcc
            refine ⟨rfl, fun hco => ?_, fun _ => ⟨rfl, hk, by intro h; exact ClientKind.noConfusion h⟩⟩
            rw [h2] at hco
            simp at hco
          · split at hc
            · have hcc := (Option.some_inj.mp hc).symm
              subst hcc
              refine ⟨rfl, fun hco => ?_, fun _ => ⟨rfl, hk, by intro h; exact ClientKind.noConfusion h⟩⟩
              rw [h2] at hco
              simp at hco
            · split at hc
              · have hcc := (Option.some_inj.mp hc).symm
                subst hcc
                refine ⟨rfl, fun hco => ?_, fun _ => ⟨rfl, hk, by intro h; exact ClientKind.noConfusion h⟩⟩
                rw [h2] at hco
                simp at hco
              · have hcc := (Option.some_inj.mp hc).symm
                subst hcc
                refine ⟨rfl, fun hco => ?_, fun _ => ⟨rfl, hk, by intro h; exact ClientKind.noConfusion h⟩⟩
                rw [h2] at hco
                simp at hco

/-- How `send_prompt_to_model` postprocesses `send_request`, once a
client was constructed. -/
theorem sptm_eq (env : EnvMap) (md : ModelData) (prompt : String) (c : Client)
    (hc : create_client env md = some c) (hr : HttpResult) :
    send_prompt_to_model env hr prompt md =
      (match (sendRequestTraced c hr prompt
          (if pyIn "openrouter" (strLower (md.api_url.getD "")) ||
              pyIn "openrouter" (strLower (md.name.getD ""))
           then md.api_id else none)).2 with
        | .ok v => (some v, none)
        | .error (.apiError m) => (none, some m)
        | .error (.pyError e) => (none, some ("Неожиданная ошибка: " ++ pyErrStr e))) := by
  unfold send_prompt_to_model sendPromptToModelTraced
  rw [hc]
  cases hres : (sendRequestTraced c hr prompt
      (if pyIn "openrouter" (strLower (md.api_url.getD "")) ||
          pyIn "openrouter" (strLower (md.name.getD ""))
       then md.api_id else none)).2 with
  | ok v => simp only [hres]
  | error e =>
    cases e with
    | apiError m => simp only [hres]
    | pyError pe => simp only [hres]

/-- A raised timeout becomes the timeout outcome. -/
theorem sptm_timeout (env : EnvMap) (md : ModelData) (prompt : String) (c : Client)
    (hc : create_client env md = some c) :
    send_prompt_to_model env .timeout prompt md =
      (none, some "Таймаут при запросе. Сервер не ответил вовремя") := by
  rw [sptm_eq env md prompt c hc .timeout]
  rfl

/-- A raised connection error becomes the connection outcome. -/
theorem sptm_connection (env : EnvMap) (md : ModelData) (prompt : String) (c : Client)
    (hc : create_client env md = some c) :
    send_prompt_to_model env .connectionError prompt md =
      (none, some "Ошибка подключения. Проверьте интернет-соединение") := by
  rw [sptm_eq env md prompt c hc .connectionError]
  rfl

/-- Any other request exception becomes the network outcome. -/
theorem sptm_requestException (env : EnvMap) (md : ModelData) (prompt : String) (c : Client)
    (hc : create_client env md = some c) (m : String) :
    send_prompt_to_model env (.requestException m) prompt md =
      (none, some ("Ошибка сети: " ++ m)) := by
  rw [sptm_eq env md prompt c hc (.requestException m)]
  rfl

/-- A status of at least 400 becomes the user-facing message of the
status table. -/
theorem sptm_status (env : EnvMap) (md : ModelData) (prompt : String) (c : Client)
    (hc : create_client env md = some c) (s : Nat) (body : Except String Json) (h : 400 ≤ s) :
    send_prompt_to_model env (.response s body) prompt md =
      (none, some (userFriendlyError (md.api_url.getD "") s body)) := by
  rw [sptm_eq env md prompt c hc (.response s body)]
  rw [(create_client_cases env md c hc).1.symm]
  unfold sendRequestTraced
  simp only [if_pos h]

/-- An undecodable body below status 400 becomes the parse-error
outcome. -/
theorem sptm_badjson (env : EnvMap) (md : ModelData) (prompt : String) (c : Client)
    (hc : create_client env md = some c) (s : Nat) (m : String) (h : ¬ 400 ≤ s) :
    send_prompt_to_model env (.response s (.error m)) prompt md =
      (none, some ("Ошибка парсинга ответа: " ++ m)) := by
  rw [sptm_eq env md prompt c hc (.response s (.error m))]
  unfold sendRequestTraced
  simp only [if_neg h]

/-- How extraction outcomes surface, below status 400 with a decodable
body. -/
theorem sptm_extract (env : EnvMap) (md : ModelData) (prompt : String) (c : Client)
    (hc : create_client env md = some c) (s : Nat) (j : Json) (h : ¬ 400 ≤ s) :
    send_prompt_to_model env (.response s (.ok j)) prompt md =
      (match extractResponse j with
        | .error (.keyError r) => (none, some ("Ошибка парсинга ответа: " ++ r))
        | .error (.indexError m) => (none, some ("Неожиданная ошибка: " ++ m))
        | .error (.typeError m) => (none, some ("Неожиданная ошибка: " ++ m))
        | .ok v =>
          match pyLen v with
          | .ok _ => (some v, none)
          | .error e => (none, some ("Неожиданная ошибка: " ++ pyErrStr e))) := by
  rw [sptm_eq env md prompt c hc (.response s (.ok j))]
  unfold sendRequestTraced
  simp only [if_neg h]
  cases he : extractResponse j with
  | error e =>
    cases e with
    | keyError r => simp [he]
    | indexError m => simp [he, pyErrStr]
    | typeError m => simp [he, pyErrStr]
  | ok v =>
    cases hl : pyLen v with
    | ok n => simp [he, hl]
    | error e => simp [he, hl]

/-- Extraction reads back exactly the content planted in a well-shaped
body. -/
theorem extract_mkBody (v : Json) : extractResponse (mkBody v) = .ok v := rfl

/-- A well-shaped 200 reply surfaces its content as the response, with
no error. -/
theorem sptm_reply (env : EnvMap) (md : ModelData) (prompt : String) (c : Client)
    (hc : create_client env md = some c) (reply : String) :
    send_prompt_to_model env (replyHttp reply) prompt md = (some (Json.str reply), none) := by
  rw [show replyHttp reply = HttpResult.response 200 (.ok (mkBody (.str reply))) from rfl]
  rw [sptm_extract env md prompt c hc 200 (mkBody (.str reply)) (by omega)]
  rfl

/-- `improve_prompt` hands a dispatch error message back unchanged. -/
theorem improve_dispatch_error (env : EnvMap) (hr : HttpResult) (orig mn : String)
    (md : ModelData) (e : String) (ho : ¬ (orig = "" ∨ pyStrip orig = ""))
    (he : send_prompt_to_model env hr
      (improvementTemplateHead ++ pyStrip orig ++ improvementTemplateTail) md = (none, some e))
    (hne : e ≠ "") :
    improve_prompt env hr orig mn md = (none, some e) := by
  unfold send_prompt_to_model at he
  unfold improve_prompt improvePromptTraced generate_improvement_prompt
  rw [if_neg ho]
  simp only [he, pyTruthyOptStr, hne]
  simp [hne]

/-- `improve_prompt` on a well-shaped non-empty reply returns the
cleaned reply when cleaning leaves something. -/
theorem improve_success (env : EnvMap) (orig mn : String) (md : ModelData) (c : Client)
    (reply : String) (hc : create_client env md = some c)
    (ho : ¬ (orig = "" ∨ pyStrip orig = ""))
    (hrne : reply ≠ "") (hp : parse_improved_prompt reply ≠ "") :
    improve_prompt env (replyHttp reply) orig mn md =
      (some (parse_improved_prompt reply), none) := by
  have h1 := sptm_reply env md
    (improvementTemplateHead ++ pyStrip orig ++ improvementTemplateTail) c hc reply
  unfold send_prompt_to_model at h1
  unfold improve_prompt improvePromptTraced generate_improvement_prompt
  rw [if_neg ho]
  simp only [h1, pyTruthyOptStr, pyTruthyOptJson, pyTruthy]
  simp [hrne, hp]

/-- `improve_prompt` on a well-shaped non-empty reply whose cleaning
leaves nothing reports the extraction failure. -/
theorem improve_cleaned_empty (env : EnvMap) (orig mn : String) (md : ModelData) (c : Client)
    (reply : String) (hc : create_client env md = some c)
    (ho : ¬ (orig = "" ∨ pyStrip orig = ""))
    (hrne : reply ≠ "") (hp : parse_improved_prompt reply = "") :
    improve_prompt env (replyHttp reply) orig mn md =
      (none, some "Не удалось извлечь улучшенный промт из ответа модели") := by
  have h1 := sptm_reply env md
    (improvementTemplateHead ++ pyStrip orig ++ improvementTemplateTail) c hc reply
  unfold send_prompt_to_model at h1
  unfold improve_prompt improvePromptTraced generate_improvement_prompt
  rw [if_neg ho]
  simp only [h1, pyTruthyOptStr, pyTruthyOptJson, pyTruthy]
  simp [hrne, hp]

/- ## Claim theorems -/

/-- C1: a dispatch with N model configurations returns exactly one
outcome per input configuration — the result list, in whatever
completion order the pool produced, is a permutation of the per-model
outcomes taken in input order, so its length is N; an empty input list
gives an empty result. -/
theorem claim1_dispatch_completeness (env : EnvMap) (world : Nat → HttpResult)
    (prompt : String) (models_list : List ModelData) (order : List Nat)
    (h : order.Perm (List.range models_list.length)) :
    (send_prompt_to_models_async env world prompt models_list order).length =
      models_list.length ∧
    (send_prompt_to_models_async env world prompt models_list order).Perm
      ((List.range models_list.length).map
        (fun i => send_to_model env (world i) prompt (models_list.getD i default))) ∧
    (models_list = [] → send_prompt_to_models_async env world prompt models_list order = []) := by
  have hperm := h.map (fun i => send_to_model env (world i) prompt (models_list.getD i default))
  refine ⟨?_, hperm, ?_⟩
  · simpa [send_prompt_to_models_async] using hperm.length_eq
  · intro he
    subst he
    have : order = [] := by simpa using h
    subst this
    rfl

/-- C2: every outcome of a dispatch has exactly one of its response and
error fields populated — never both, never neither. -/
theorem claim2_outcome_exclusivity (env : EnvMap) (world : Nat → HttpResult)
    (prompt : String) (models_list : List ModelData) (order : List Nat) (o : Outcome)
    (ho : o ∈ send_prompt_to_models_async env world prompt models_list order) :
    (o.response.isSome ∧ o.error = none) ∨ (o.response = none ∧ o.error.isSome) := by
  unfold send_prompt_to_models_async at ho
  obtain ⟨i, -, rfl⟩ := List.mem_map.mp ho
  unfold send_to_model
  exact sptm_exclusive env (world i) prompt (models_list.getD i default)

/-- C8: an empty or whitespace-only original prompt makes
`improve_prompt` fail with the empty-original-prompt message before any
HTTP request is issued (the traced call records no request body). -/
theorem claim8_empty_prompt (env : EnvMap) (hr : HttpResult) (mn : String)
    (md : ModelData) (original : String) (h : original = "" ∨ pyStrip original = "") :
    improvePromptTraced env hr original mn md =
      ((none, some "Исходный промт не может быть пустым"), none) := by
  unfold improvePromptTraced generate_improvement_prompt
  rw [if_pos h]

/-- C3 counterexample: a delivered non-2xx response is not always
converted to an error — HTTP 301 with a well-shaped body yields a
success outcome (response set, no error), because the code only treats
status ≥ 400 as an error. -/
theorem claim3_counterexample :
    send_prompt_to_model
      (fun s => if s = "OPENAI_API_KEY" then some "sk-test" else none)
      (.response 301 (.ok (mkBody (Json.str "hello"))))
      "hi"
      { id := some 1, name := some "gpt",
        api_url := some "https://api.openai.com/v1/chat/completions",
        api_id := some "OPENAI_API_KEY" } =
      (some (Json.str "hello"), none) := rfl

/-- C3 (amended): with "non-2xx status" read as "status ≥ 400", every
listed failure mode — timeout, connection failure, HTTP status ≥ 400,
malformed JSON, failing content-path extraction — is converted into an
outcome with no response and a non-empty error string, and the per-model
call returns normally instead of raising. -/
theorem claim3_amended_error_isolation (env : EnvMap) (md : ModelData) (prompt : String)
    (c : Client) (hc : create_client env md = some c) :
    (send_prompt_to_model env .timeout prompt md =
      (none, some "Таймаут при запросе. Сервер не ответил вовремя")) ∧
    (send_prompt_to_model env .connectionError prompt md =
      (none, some "Ошибка подключения. Проверьте интернет-соединение")) ∧
    (∀ s body, 400 ≤ s → ∃ m, send_prompt_to_model env (.response s body) prompt md =
      (none, some m) ∧ m ≠ "") ∧
    (∀ s m, ¬ 400 ≤ s → send_prompt_to_model env (.response s (.error m)) prompt md =
      (none, some ("Ошибка парсинга ответа: " ++ m))) ∧
    (∀ s j e, ¬ 400 ≤ s → extractResponse j = .error e →
      ∃ m, send_prompt_to_model env (.response s (.ok j)) prompt md =
        (none, some m) ∧ m ≠ "") := by
  refine ⟨sptm_timeout env md prompt c hc, sptm_connection env md prompt c hc, ?_, ?_, ?_⟩
  · intro s body hs
    exact ⟨userFriendlyError (md.api_url.getD "") s body,
      sptm_status env md prompt c hc s body hs,
      userFriendlyError_ne_empty (md.api_url.getD "") s body⟩
  · intro s m hs
    exact sptm_badjson env md prompt c hc s m hs
  · intro s j e hs he
    rw [sptm_extract env md prompt c hc s j hs]
    cases e with
    | keyError r =>
      rw [he]
      exact ⟨_, rfl, appendNeEmptyLeft _ _ (by decide)⟩
    | indexError m =>
      rw [he]
      exact ⟨_, rfl, appendNeEmptyLeft _ _ (by decide)⟩
    | typeError m =>
      rw [he]
      exact ⟨_, rfl, appendNeEmptyLeft _ _ (by decide)⟩

/-- C4 counterexample: a non-string value at `choices[0].message.content`
does not make extraction fail — a JSON array there is returned as the
response with no error at all. -/
theorem claim4_counterexample :
    send_prompt_to_model
      (fun s => if s = "OPENAI_API_KEY" then some "sk-test" else none)
      (.response 200 (.ok (mkBody (Json.arr [Json.num 1, Json.num 2]))))
      "hi"
      { id := some 1, name := some "gpt",
        api_url := some "https://api.openai.com/v1/chat/completions",
        api_id := some "OPENAI_API_KEY" } =
      (some (Json.arr [Json.num 1, Json.num 2]), none) := rfl

/-- C4 (amended): extraction reads `choices[0].message.content`; a
missing dictionary key on that path (or an undecodable body) yields a
MalformedResponse-class «Ошибка парсинга ответа» outcome; an empty
`choices` list or non-object node yields a generic «Неожиданная ошибка»
outcome instead; and a non-string content value is not rejected — array
and object values are returned as the response with no error, while
number, boolean and null values yield a generic unexpected-error
outcome (from `len()` in the logging line). -/
theorem claim4_amended_extraction (env : EnvMap) (md : ModelData) (prompt : String)
    (c : Client) (hc : create_client env md = some c) :
    (∀ v, extractResponse (mkBody v) = .ok v) ∧
    (∀ s j r, ¬ 400 ≤ s → extractResponse j = .error (.keyError r) →
      send_prompt_to_model env (.response s (.ok j)) prompt md =
        (none, some ("Ошибка парсинга ответа: " ++ r))) ∧
    (∀ s m, ¬ 400 ≤ s → send_prompt_to_model env (.response s (.error m)) prompt md =
      (none, some ("Ошибка парсинга ответа: " ++ m))) ∧
    (∀ s j m, ¬ 400 ≤ s →
      (extractResponse j = .error (.indexError m) ∨ extractResponse j = .error (.typeError m)) →
      send_prompt_to_model env (.response s (.ok j)) prompt md =
        (none, some ("Неожиданная ошибка: " ++ m))) ∧
    (∀ s xs, ¬ 400 ≤ s →
      send_prompt_to_model env (.response s (.ok (mkBody (Json.arr xs)))) prompt md =
        (some (Json.arr xs), none)) ∧
    (∀ s fs, ¬ 400 ≤ s →
      send_prompt_to_model env (.response s (.ok (mkBody (Json.obj fs)))) prompt md =
        (some (Json.obj fs), none)) ∧
    (∀ s n, ¬ 400 ≤ s →
      send_prompt_to_model env (.response s (.ok (mkBody (Json.num n)))) prompt md =
        (none, some ("Неожиданная ошибка: " ++ "object of type 'int' has no len()"))) ∧
    (∀ s b, ¬ 400 ≤ s →
      send_prompt_to_model env (.response s (.ok (mkBody (Json.bool b)))) prompt md =
        (none, some ("Неожиданная ошибка: " ++ "object of type 'bool' has no len()"))) ∧
    (∀ s, ¬ 400 ≤ s →
      send_prompt_to_model env (.response s (.ok (mkBody Json.null))) prompt md =
        (none, some ("Неожиданная ошибка: " ++ "object of type 'NoneType' has no len()"))) := by
  refine ⟨fun v => extract_mkBody v, ?_, ?_, ?_, ?_, ?_, ?_, ?_, ?_⟩
  · intro s j r hs he
    rw [sptm_extract env md prompt c hc s j hs, he]
  · intro s m hs
    exact sptm_badjson env md prompt c hc s m hs
  · intro s j m hs he
    rw [sptm_extract env md prompt c hc s j hs]
    cases he with
    | inl h => rw [h]
    | inr h => rw [h]
  · intro s xs hs
    rw [sptm_extract env md prompt c hc s (mkBody (Json.arr xs)) hs, extract_mkBody]
    rfl
  · intro s fs hs
    rw [sptm_extract env md prompt c hc s (mkBody (Json.obj fs)) hs, extract_mkBody]
    rfl
  · intro s n hs
    rw [sptm_extract env md prompt c hc s (mkBody (Json.num n)) hs, extract_mkBody]
    rfl
  · intro s b hs
    rw [sptm_extract env md prompt c hc s (mkBody (Json.bool b)) hs, extract_mkBody]
    rfl
  · intro s hs
    rw [sptm_extract env md prompt c hc s (mkBody Json.null) hs, extract_mkBody]
    rfl

/-- The request body `send_request` POSTs. -/
theorem sendRequestTraced_fst (c : Client) (hr : HttpResult) (prompt : String)
    (mn : Option String) :
    (sendRequestTraced c hr prompt mn).1 = prepareRequestData c.kind prompt mn := rfl

/-- Once a client exists, exactly one POST is recorded, with the body
built from the client's class and the model-name override. -/
theorem sptmTraced_snd (env : EnvMap) (md : ModelData) (prompt : String) (c : Client)
    (hc : create_client env md = some c) (hr : HttpResult) :
    (sendPromptToModelTraced env hr prompt md).2 =
      some (prepareRequestData c.kind prompt
        (if pyIn "openrouter" (strLower (md.api_url.getD "")) ||
            pyIn "openrouter" (strLower (md.name.getD ""))
         then md.api_id else none)) := by
  unfold sendPromptToModelTraced
  rw [hc]
  cases hres : (sendRequestTraced c hr prompt
      (if pyIn "openrouter" (strLower (md.api_url.getD "")) ||
          pyIn "openrouter" (strLower (md.name.getD ""))
       then md.api_id else none)).2 with
  | ok v => simp only [hres, sendRequestTraced_fst]
  | error e =>
    cases e with
    | apiError m => simp only [hres, sendRequestTraced_fst]
    | pyError pe => simp only [hres, sendRequestTraced_fst]

/-- C5: the HTTP status mapping of outcomes — 401 gives the
invalid-credential message, 429 the rate-limit message, any status ≥ 500
a server-error message carrying the numeric code, 404 the
gateway-specific wording exactly when the endpoint URL carries the
gateway marker, 402/403 their fixed messages, and 400 as well as any
other ≥ 400 status their category message with the provider's
`error.message` detail appended when it is truthy. -/
theorem claim5_status_mapping (env : EnvMap) (md : ModelData) (prompt : String)
    (c : Client) (hc : create_client env md = some c) :
    (∀ body, send_prompt_to_model env (.response 401 body) prompt md =
      (none, some "Неверный API-ключ. Проверьте правильность ключа в файле .env")) ∧
    (∀ body, send_prompt_to_model env (.response 429 body) prompt md =
      (none, some "Превышен лимит запросов. Подождите немного и попробуйте снова")) ∧
    (∀ s body, 500 ≤ s → send_prompt_to_model env (.response s body) prompt md =
      (none, some ("Ошибка сервера (код " ++ toString s ++ "). Сервис временно недоступен"))) ∧
    (∀ body, pyIn "openrouter" (strLower (md.api_url.getD "")) = true →
      send_prompt_to_model env (.response 404 body) prompt md =
        (none, some "Модель не найдена. Проверьте правильность имени модели в настройках")) ∧
    (∀ body, pyIn "openrouter" (strLower (md.api_url.getD "")) = false →
      send_prompt_to_model env (.response 404 body) prompt md =
        (none, some "Ресурс не найден. Проверьте URL API")) ∧
    (∀ body, send_prompt_to_model env (.response 402 body) prompt md =
      (none, some "Требуется оплата. Пополните баланс аккаунта или выберите другую модель")) ∧
    (∀ body, send_prompt_to_model env (.response 403 body) prompt md =
      (none, some "Доступ запрещен. Проверьте права доступа к API")) ∧
    (∀ body, send_prompt_to_model env (.response 400 body) prompt md =
      (none, some ("Неправильный запрос" ++
        (if pyTruthy (extractErrorMessage body) then ": " ++ pyStr (extractErrorMessage body)
         else "")))) ∧
    (∀ s body, 400 ≤ s → s ≠ 400 → s ≠ 401 → s ≠ 402 → s ≠ 403 → s ≠ 404 → s ≠ 429 →
      s < 500 → send_prompt_to_model env (.response s body) prompt md =
      (none, some ("Ошибка HTTP " ++ toString s ++
        (if pyTruthy (extractErrorMessage body) then ": " ++ pyStr (extractErrorMessage body)
         else "")))) := by
  refine ⟨?_, ?_, ?_, ?_, ?_, ?_, ?_, ?_, ?_⟩
  · intro body
    rw [sptm_status env md prompt c hc 401 body (by omega)]
    rfl
  · intro body
    rw [sptm_status env md prompt c hc 429 body (by omega)]
    rfl
  · intro s body hs
    rw [sptm_status env md prompt c hc s body (by omega)]
    unfold userFriendlyError
    rw [if_neg (by omega), if_neg (by omega), if_neg (by omega), if_neg (by omega),
      if_neg (by omega), if_neg (by omega), if_pos hs]
  · intro body hg
    rw [sptm_status env md prompt c hc 404 body (by omega)]
    unfold userFriendlyError
    simp only [hg]
    rfl
  · intro body hg
    rw [sptm_status env md prompt c hc 404 body (by omega)]
    unfold userFriendlyError
    simp only [hg]
    rfl
  · intro body
    rw [sptm_status env md prompt c hc 402 body (by omega)]
    rfl
  · intro body
    rw [sptm_status env md prompt c hc 403 body (by omega)]
    rfl
  · intro body
    rw [sptm_status env md prompt c hc 400 body (by omega)]
    rfl
  · intro s body hs h400 h401 h402 h403 h404 h429 h500
    rw [sptm_status env md prompt c hc s body (by omega)]
    unfold userFriendlyError
    rw [if_neg h400, if_neg h401, if_neg h402, if_neg h403, if_neg h404, if_neg h429,
      if_neg (by omega)]

/-- C6: under the gateway marker (case-insensitive `openrouter`
substring of URL or display name), the credential comes from the one
fixed `OPENROUTER_API_KEY` variable — the resolver's result depends on
the environment only through that variable — and the configuration's
`api_id` field is sent as the request's model identifier; without the
marker the credential comes from the variable named by `api_id` and no
override is sent, so the request carries the adapter's built-in default
model name. -/
theorem claim6_gateway_resolution (env : EnvMap) (md : ModelData) (hr : HttpResult)
    (prompt : String) (a u : String)
    (hid : md.api_id = some a) (ha : a ≠ "") (hurl : md.api_url = some u) (hu : u ≠ "") :
    ((pyIn "openrouter" (strLower u) || pyIn "openrouter" (strLower (md.name.getD ""))) = true →
      (∀ env2 : EnvMap, env2 "OPENROUTER_API_KEY" = env "OPENROUTER_API_KEY" →
        create_client env2 md = create_client env md) ∧
      (∀ k, env "OPENROUTER_API_KEY" = some k → k ≠ "" →
        create_client env md = some { kind := .openrouter, api_key := k, api_url := u } ∧
        (sendPromptToModelTraced env hr prompt md).2 =
          some (prepareRequestData .openrouter prompt (some a)) ∧
        (prepareRequestData .openrouter prompt (some a)).model = a)) ∧
    ((pyIn "openrouter" (strLower u) || pyIn "openrouter" (strLower (md.name.getD ""))) = false →
      ∀ c, create_client env md = some c →
        get_api_key env a = some c.api_key ∧
        (sendPromptToModelTraced env hr prompt md).2 =
          some (prepareRequestData c.kind prompt none) ∧
        (prepareRequestData c.kind prompt none).model = defaultModel c.kind) := by
  have hgetd : md.api_url.getD "" = u := by rw [hurl]; rfl
  have hfalsy : (pyFalsyOpt md.api_id || pyFalsyOpt md.api_url) = false := by
    rw [hid, hurl]
    simp [pyFalsyOpt, ha, hu]
  constructor
  · intro hm
    constructor
    · intro env2 hk2
      unfold create_client
      simp only [hfalsy, Bool.false_eq_true, if_false, hgetd, hm, if_true]
      unfold get_api_key
      rw [hk2]
    · intro k hk hkne
      have hcreate : create_client env md = some { kind := .openrouter, api_key := k, api_url := u } := by
        unfold create_client
        simp only [hfalsy, Bool.false_eq_true, if_false, hgetd, hm, if_true]
        unfold get_api_key
        rw [hk]
        simp [hkne]
      refine ⟨hcreate, ?_, ?_⟩
      · rw [sptmTraced_snd env md prompt _ hcreate hr]
        rw [hgetd, hm, if_pos rfl, hid]
      · unfold prepareRequestData pyOrStr
        simp [ha]
  · intro hm c hcreate
    have hcases := create_client_cases env md c hcreate
    rw [hgetd] at hcases
    refine ⟨?_, ?_, ?_⟩
    · have := (hcases.2.2 hm).1
      rw [hid] at this
      exact this
    · rw [sptmTraced_snd env md prompt c hcreate hr]
      rw [hgetd, hm]
      simp only [Bool.false_eq_true, if_false]
    · unfold prepareRequestData pyOrStr
      rfl

/-- C7: when the credential environment variable (the fixed gateway one
under the marker, else the one named by `api_id`) is unset or empty,
client resolution returns `none` rather than raising, the outcome says
the client could not be constructed, and no HTTP request is recorded. -/
theorem claim7_missing_credential (env : EnvMap) (md : ModelData) (hr : HttpResult)
    (prompt : String) (a u : String)
    (hid : md.api_id = some a) (ha : a ≠ "") (hurl : md.api_url = some u) (hu : u ≠ "")
    (hcred : env (if pyIn "openrouter" (strLower u) || pyIn "openrouter" (strLower (md.name.getD ""))
        then "OPENROUTER_API_KEY" else a) = none ∨
      env (if pyIn "openrouter" (strLower u) || pyIn "openrouter" (strLower (md.name.getD ""))
        then "OPENROUTER_API_KEY" else a) = some "") :
    create_client env md = none ∧
    sendPromptToModelTraced env hr prompt md =
      ((none, some "Не удалось создать клиент API"), none) := by
  have hgetd : md.api_url.getD "" = u := by rw [hurl]; rfl
  have hfalsy : (pyFalsyOpt md.api_id || pyFalsyOpt md.api_url) = false := by
    rw [hid, hurl]
    simp [pyFalsyOpt, ha, hu]
  have hcreate : create_client env md = none := by
    unfold create_client
    simp only [hfalsy, Bool.false_eq_true, if_false, hgetd]
    by_cases hm : (pyIn "openrouter" (strLower u) || pyIn "openrouter" (strLower (md.name.getD ""))) = true
    · rw [if_pos hm] at hcred ⊢
      unfold get_api_key
      cases hcred with
      | inl h => rw [h]
      | inr h => rw [h]; simp
    · have hmf : (pyIn "openrouter" (strLower u) || pyIn "openrouter" (strLower (md.name.getD ""))) = false := by
        simpa using hm
      rw [hmf] at hcred
      simp only [Bool.false_eq_true, if_false] at hcred ⊢
      rw [hmf]
      simp only [Bool.false_eq_true, if_false]
      unfold get_api_key
      rw [hid]
      cases hcred with
      | inl h => rw [show (some a).getD "" = a from rfl, h]
      | inr h => rw [show (some a).getD "" = a from rfl, h]; simp
  refine ⟨hcreate, ?_⟩
  unfold sendPromptToModelTraced
  rw [hcreate]

set_option maxHeartbeats 1000000 in
/-- C9: given a constructible client and a non-empty original prompt,
(1) a dispatch error message is handed back by `improve_prompt`
unchanged; (2) a reply wrapped in a fenced block and prefixed with
`Improved prompt: ` comes back with fence and prefix stripped and
whitespace trimmed — exactly the inner text `X`, for any backtick-free
trimmed `X` containing no further lead-in occurrences (the `noFire` side
conditions); and (3) a reply whose cleaned result is empty yields the
EmptyImprovedPrompt-class message. -/
theorem claim9_reply_cleanup (env : EnvMap) (md : ModelData) (mn orig : String)
    (c : Client) (X : String) (hc : create_client env md = some c)
    (ho : ¬ (orig = "" ∨ pyStrip orig = ""))
    (hne : X.data ≠ []) (htick : noTick X.data = true)
    (hhead : headNoWs X.data = true) (hlast : lastNoWs X.data = true)
    (h1 : noFire true (leadinPat "улучшенный промт:") (some ' ') (X.data ++ ['\n']) = true)
    (h2 : noFire true (leadinPat "вот улучшенная версия:") (some ' ') (X.data ++ ['\n']) = true)
    (h3 : noFire true (leadinPat "улучшенная версия:") (some ' ') (X.data ++ ['\n']) = true)
    (h4 : noFire true (leadinPat "improved prompt:") (some ' ') (X.data ++ ['\n']) = true)
    (h5 : noFire true (leadinPat "here is the improved version:") none (X.data ++ ['\n']) = true)
    (h6 : noFire true (leadinPat "improved version:") none (X.data ++ ['\n']) = true) :
    (∀ hr e, send_prompt_to_model env hr
        (improvementTemplateHead ++ pyStrip orig ++ improvementTemplateTail) md =
        (none, some e) → e ≠ "" →
      improve_prompt env hr orig mn md = (none, some e)) ∧
    (improve_prompt env (replyHttp ("```\nImproved prompt: " ++ X ++ "\n```")) orig mn md =
      (some X, none)) ∧
    (improve_prompt env (replyHttp "   ") orig mn md =
      (none, some "Не удалось извлечь улучшенный промт из ответа модели")) := by
  have hparse := parse_fenced_leadin X hne htick hhead hlast h1 h2 h3 h4 h5 h6
  refine ⟨?_, ?_, ?_⟩
  · intro hr e he hene
    exact improve_dispatch_error env hr orig mn md e ho he hene
  · have hrne : ("```\nImproved prompt: " ++ X ++ "\n```") ≠ "" := by
      apply strNeEmpty
      simp only [String.data_append]
      simp
    have hXne : X ≠ "" := strNeEmpty X hne
    rw [improve_success env orig mn md c _ hc ho hrne (by rw [hparse]; exact hXne), hparse]
  · exact improve_cleaned_empty env orig mn md c "   " hc ho (by decide) (by decide)

set_option maxHeartbeats 1000000 in
/-- C10: `parse_improved_prompt` is total on strings and its result
never carries leading or trailing whitespace; and its lead-in removal
runs in multiline mode — a lead-in phrase at the start of a later line
of the reply, not only at the very start, is deleted (for any prefix `A`
and tail `X` free of backticks and of other phrase occurrences, stated
as `noFire` / `noFireSeg` side conditions). -/
theorem claim10_multiline_leadin :
    (∀ s : String, pyStrip (parse_improved_prompt s) = parse_improved_prompt s) ∧
    (∀ A X : String,
      noTick A.data = true → noTick X.data = true → headNoWs X.data = true →
      noFire true (leadinPat "улучшенный промт:") none
        (A.data ++ '\n' :: ("Improved prompt: ".data ++ X.data)) = true →
      noFire true (leadinPat "вот улучшенная версия:") none
        (A.data ++ '\n' :: ("Improved prompt: ".data ++ X.data)) = true →
      noFire true (leadinPat "улучшенная версия:") none
        (A.data ++ '\n' :: ("Improved prompt: ".data ++ X.data)) = true →
      noFireSeg true (leadinPat "improved prompt:") none (A.data ++ ['\n'])
        ("Improved prompt: ".data ++ X.data) = true →
      noFire true (leadinPat "improved prompt:") (some ' ') X.data = true →
      noFire true (leadinPat "here is the improved version:") none
        (A.data ++ '\n' :: X.data) = true →
      noFire true (leadinPat "improved version:") none
        (A.data ++ '\n' :: X.data) = true →
      parse_improved_prompt (A ++ "\nImproved prompt: " ++ X) = pyStrip (A ++ "\n" ++ X)) := by
  constructor
  · intro s
    have hcore : ∀ cs : List Char, pyStripCore (parseImprovedCore cs) = parseImprovedCore cs := by
      intro cs
      unfold parseImprovedCore
      split
      · rfl
      · exact pyStripCore_idem _
    unfold pyStrip parse_improved_prompt
    rw [show (String.mk (parseImprovedCore s.data)).data = parseImprovedCore s.data from rfl]
    exact congrArg String.mk (hcore s.data)
  · intro A X htickA htickX hXhead h1 h2 h3 hseg4 h4 h5 h6
    exact parse_midline_leadin A X htickA htickX hXhead h1 h2 h3 hseg4 h4 h5 h6

/- ## Witnesses -/

/-- Witness for C1: two configurations, completion order reversed, still
two outcomes. -/
theorem claim1_witness :
    (send_prompt_to_models_async (fun _ => none) (fun _ => HttpResult.timeout) "hi"
      [⟨some 1, none, none, none⟩, ⟨some 2, none, none, none⟩] [1, 0]).length = 2 :=
  (claim1_dispatch_completeness (fun _ => none) (fun _ => HttpResult.timeout) "hi"
    [⟨some 1, none, none, none⟩, ⟨some 2, none, none, none⟩] [1, 0] (by decide)).1

/-- Witness for C2: the one outcome of a one-model dispatch is
exclusive. -/
theorem claim2_witness :
    ((send_to_model (fun _ => none) HttpResult.timeout "hi"
        (([⟨some 1, none, none, none⟩] : List ModelData).getD 0 default)).response.isSome ∧
      (send_to_model (fun _ => none) HttpResult.timeout "hi"
        (([⟨some 1, none, none, none⟩] : List ModelData).getD 0 default)).error = none) ∨
    ((send_to_model (fun _ => none) HttpResult.timeout "hi"
        (([⟨some 1, none, none, none⟩] : List ModelData).getD 0 default)).response = none ∧
      (send_to_model (fun _ => none) HttpResult.timeout "hi"
        (([⟨some 1, none, none, none⟩] : List ModelData).getD 0 default)).error.isSome) :=
  claim2_outcome_exclusivity (fun _ => none) (fun _ => HttpResult.timeout) "hi"
    [⟨some 1, none, none, none⟩] [0] _ (List.Mem.head _)

/-- Witness for C3 (amended): a timeout against a constructible client
yields the timeout outcome. -/
theorem claim3_witness :
    send_prompt_to_model (fun s => if s = "OPENAI_API_KEY" then some "sk-test" else none)
      HttpResult.timeout "hi"
      { id := some 1, name := some "gpt",
        api_url := some "https://api.openai.com/v1/chat/completions",
        api_id := some "OPENAI_API_KEY" } =
      (none, some "Таймаут при запросе. Сервер не ответил вовремя") :=
  (claim3_amended_error_isolation
    (fun s => if s = "OPENAI_API_KEY" then some "sk-test" else none)
    { id := some 1, name := some "gpt",
      api_url := some "https://api.openai.com/v1/chat/completions",
      api_id := some "OPENAI_API_KEY" } "hi"
    ⟨.openai, "sk-test", "https://api.openai.com/v1/chat/completions", 30⟩ rfl).1

/-- Witness for C4 (amended): a body without `choices` yields the
parse-error outcome quoting the missing key. -/
theorem claim4_witness :
    send_prompt_to_model (fun s => if s = "OPENAI_API_KEY" then some "sk-test" else none)
      (.response 200 (.ok (Json.obj []))) "hi"
      { id := some 1, name := some "gpt",
        api_url := some "https://api.openai.com/v1/chat/completions",
        api_id := some "OPENAI_API_KEY" } =
      (none, some ("Ошибка парсинга ответа: " ++ (squote ++ "choices" ++ squote))) :=
  (claim4_amended_extraction
    (fun s => if s = "OPENAI_API_KEY" then some "sk-test" else none)
    { id := some 1, name := some "gpt",
      api_url := some "https://api.openai.com/v1/chat/completions",
      api_id := some "OPENAI_API_KEY" } "hi"
    ⟨.openai, "sk-test", "https://api.openai.com/v1/chat/completions", 30⟩ rfl).2.1
    200 (Json.obj []) (squote ++ "choices" ++ squote) (by omega) rfl

/-- Witness for C5: a 401 with an undecodable body maps to the
invalid-credential message. -/
theorem claim5_witness :
    send_prompt_to_model (fun s => if s = "OPENAI_API_KEY" then some "sk-test" else none)
      (.response 401 (.error "boom")) "hi"
      { id := some 1, name := some "gpt",
        api_url := some "https://api.openai.com/v1/chat/completions",
        api_id := some "OPENAI_API_KEY" } =
      (none, some "Неверный API-ключ. Проверьте правильность ключа в файле .env") :=
  (claim5_status_mapping
    (fun s => if s = "OPENAI_API_KEY" then some "sk-test" else none)
    { id := some 1, name := some "gpt",
      api_url := some "https://api.openai.com/v1/chat/completions",
      api_id := some "OPENAI_API_KEY" } "hi"
    ⟨.openai, "sk-test", "https://api.openai.com/v1/chat/completions", 30⟩ rfl).1
    (.error "boom")

/-- Witness for C6: a gateway-marked configuration resolves the fixed
credential and sends its `api_id` as the model identifier. -/
theorem claim6_witness :
    create_client (fun s => if s = "OPENROUTER_API_KEY" then some "or-key" else none)
      { id := some 2, name := some "router",
        api_url := some "https://openrouter.ai/api/v1/chat/completions",
        api_id := some "meta-llama/llama-3.3-70b-instruct" } =
      some ⟨.openrouter, "or-key", "https://openrouter.ai/api/v1/chat/completions", 30⟩ ∧
    (sendPromptToModelTraced (fun s => if s = "OPENROUTER_API_KEY" then some "or-key" else none)
      HttpResult.timeout "hi"
      { id := some 2, name := some "router",
        api_url := some "https://openrouter.ai/api/v1/chat/completions",
        api_id := some "meta-llama/llama-3.3-70b-instruct" }).2 =
      some (prepareRequestData .openrouter "hi" (some "meta-llama/llama-3.3-70b-instruct")) ∧
    (prepareRequestData .openrouter "hi" (some "meta-llama/llama-3.3-70b-instruct")).model =
      "meta-llama/llama-3.3-70b-instruct" :=
  ((claim6_gateway_resolution
    (fun s => if s = "OPENROUTER_API_KEY" then some "or-key" else none)
    { id := some 2, name := some "router",
      api_url := some "https://openrouter.ai/api/v1/chat/completions",
      api_id := some "meta-llama/llama-3.3-70b-instruct" }
    HttpResult.timeout "hi" "meta-llama/llama-3.3-70b-instruct"
    "https://openrouter.ai/api/v1/chat/completions" rfl (by decide) rfl (by decide)).1
    (by decide)).2 "or-key" rfl (by decide)

/-- Witness for C7: with no credential in the environment, no client and
no HTTP request. -/
theorem claim7_witness :
    create_client (fun _ => none)
      { id := some 1, name := some "gpt",
        api_url := some "https://api.openai.com/v1/chat/completions",
        api_id := some "OPENAI_API_KEY" } = none ∧
    sendPromptToModelTraced (fun _ => none) HttpResult.timeout "hi"
      { id := some 1, name := some "gpt",
        api_url := some "https://api.openai.com/v1/chat/completions",
        api_id := some "OPENAI_API_KEY" } =
      ((none, some "Не удалось создать клиент API"), none) :=
  claim7_missing_credential (fun _ => none)
    { id := some 1, name := some "gpt",
      api_url := some "https://api.openai.com/v1/chat/completions",
      api_id := some "OPENAI_API_KEY" }
    HttpResult.timeout "hi" "OPENAI_API_KEY" "https://api.openai.com/v1/chat/completions"
    rfl (by decide) rfl (by decide) (Or.inl rfl)

/-- Witness for C8: a whitespace-only original prompt fails fast with no
request recorded. -/
theorem claim8_witness :
    improvePromptTraced (fun _ => none) HttpResult.timeout "   " "m" ⟨some 1, none, none, none⟩ =
      ((none, some "Исходный промт не может быть пустым"), none) :=
  claim8_empty_prompt (fun _ => none) HttpResult.timeout "m" ⟨some 1, none, none, none⟩ "   "
    (Or.inr (by decide))

/-- Witness for C9: a fenced, prefixed reply comes back as its inner
text. -/
theorem claim9_witness :
    improve_prompt (fun s => if s = "OPENAI_API_KEY" then some "sk-test" else none)
      (replyHttp ("```\nImproved prompt: " ++ "Be concise." ++ "\n```")) "hello" "m"
      { id := some 1, name := some "gpt",
        api_url := some "https://api.openai.com/v1/chat/completions",
        api_id := some "OPENAI_API_KEY" } =
      (some "Be concise.", none) :=
  (claim9_reply_cleanup
    (fun s => if s = "OPENAI_API_KEY" then some "sk-test" else none)
    { id := some 1, name := some "gpt",
      api_url := some "https://api.openai.com/v1/chat/completions",
      api_id := some "OPENAI_API_KEY" } "m" "hello"
    ⟨.openai, "sk-test", "https://api.openai.com/v1/chat/completions", 30⟩ "Be concise."
    rfl (by decide) (by decide) (by decide) (by decide) (by decide) (by decide)
    (by decide) (by decide) (by decide) (by decide) (by decide)).2.1

/-- Witness for C10: a lead-in phrase on the second line is deleted. -/
theorem claim10_witness :
    parse_improved_prompt ("hello" ++ "\nImproved prompt: " ++ "world") =
      pyStrip ("hello" ++ "\n" ++ "world") :=
  claim10_multiline_leadin.2 "hello" "world" (by decide) (by decide) (by decide)
    (by decide) (by decide) (by decide) (by decide) (by decide) (by decide) (by decide)
